import Mathlib

/-!
# Verification of the isomorphic-translation core

A shallow embedding, in Lean 4, of the parts of the Python program
(constants.py, models.py, glossary.py, reparacion.py, casos_dificiles.py,
nucleos.py, core.py) that the correctness claims are about, together with
proofs or refutations of those claims.

Conventions of the embedding:
* Python `dict`s become insertion-ordered association lists.
* Python `int` positions become `Int`; Python list indexing (including the
  negative-index and IndexError behaviour) is modelled by `pyResolve` and
  friends; code that can raise returns `Except PyErr`.
* Python truthiness of an `Optional[str]` field (`if x:`) is `strTruthy`:
  `None` and the empty string are falsy.
* Pure logging (the `_historial` list, the `_acciones` list of the repairer,
  timestamps) and presentation-only formatting methods are omitted: no claim
  mentions them and no modelled control flow reads them.
-/

set_option maxRecDepth 4000

/-- Python truthiness of an `Optional[str]` value: `None` and `""` are falsy. -/
def strTruthy : Option String → Bool
  | none => false
  | some s => !(s == "")

/-- ASCII lower-casing, modelling Python `str.lower()` on the ASCII tokens
used throughout this development. -/
def pyLower (s : String) : String := String.mk (s.toList.map Char.toLower)

/-- Python `s.endswith(suffix)`, via character lists so that it evaluates
inside the kernel. -/
def pyEndsWith (s suffix : String) : Bool :=
  suffix.toList.reverse.isPrefixOf s.toList.reverse

/-- Python `s.startswith(prefijo)`, via character lists. -/
def pyStartsWith (s prefijo : String) : Bool :=
  prefijo.toList.isPrefixOf s.toList

/-- Modify the element at index `i` (no-op when out of range). -/
def listModifyIdx {α : Type} : List α → Nat → (α → α) → List α
  | [], _, _ => []
  | x :: xs, 0, f => f x :: xs
  | x :: xs, n + 1, f => x :: listModifyIdx xs n f

/-- Association-list lookup, modelling Python `dict.get` /
`x in dict` on an insertion-ordered dict. -/
def alistGet {α : Type} (l : List (String × α)) (k : String) : Option α :=
  match l.find? (fun p => p.1 == k) with
  | some p => some p.2
  | none => none

/-- Association-list update of an existing key (in place, preserving order). -/
def alistSet {α : Type} (l : List (String × α)) (k : String) (v : α) :
    List (String × α) :=
  l.map (fun p => if p.1 == k then (k, v) else p)

-- ══════════════════════════════════════════════════════════════
-- constants.py: enumerations and fixed tables
-- ══════════════════════════════════════════════════════════════

/-- `TokenStatus` (constants.py). -/
inductive TokenStatus where
  | PENDIENTE
  | ASIGNADO
  | BLOQUEADO
deriving DecidableEq, Repr

/-- `TokenCategoria` (constants.py). -/
inductive TokenCategoria where
  | NUCLEO
  | PARTICULA
  | LOCUCION
deriving DecidableEq, Repr

/-- `CategoriaGramatical` (constants.py). -/
inductive CategoriaGramatical where
  | SUSTANTIVO
  | ADJETIVO
  | ADVERB
  | VERBO
  | PREPOSICION
  | CONJUNCION
  | PRONOMBRE
  | ARTICULO
  | DEMOSTRATIVO
deriving DecidableEq, Repr

/-- `FuncRole` (constants.py). -/
inductive FuncRole where
  | COPULA
  | REGIMEN
  | DETERMINACION
  | NEXO_LOGICO
  | MARCA_CASUAL
  | ADVERBIAL
  | RELATIVO
deriving DecidableEq, Repr

/-- `Reason` (constants.py). -/
inductive Reason where
  | NO_ROOT
  | GAP_DERIVATION
  | COLLISION
  | IDIOM
deriving DecidableEq, Repr

/-- `Reason.name`, the Python enum member name. -/
def Reason.name : Reason → String
  | .NO_ROOT => "NO_ROOT"
  | .GAP_DERIVATION => "GAP_DERIVATION"
  | .COLLISION => "COLLISION"
  | .IDIOM => "IDIOM"

/-- `WHITELIST_INYECCION` (constants.py).  Python stores it as a `set`; the
iteration order chosen here is the literal order of the source.  The only
loop over it (phase F2 of the repairer) is unreachable, see
`identificar_problema`. -/
def WHITELIST_INYECCION : List String := ["hecho", "cosa", "algo", "que"]

/-- `BLACKLIST_INYECCION` (constants.py). -/
def BLACKLIST_INYECCION : List String :=
  ["yo", "tú", "él", "ella", "nosotros", "vosotros", "ellos", "ellas",
   "me", "te", "se", "nos", "os"]

/-- `SUFIJOS` (constants.py): suffix table keyed by grammatical category,
each value an insertion-ordered dict from subtype to suffix list. -/
def SUFIJOS : List (CategoriaGramatical × List (String × List String)) :=
  [(.SUSTANTIVO,
      [("abstracto", ["-idad", "-ción", "-miento"]),
       ("concreto", ["-a", "-o", "-e"]),
       ("agente", ["-dor", "-nte"])]),
   (.ADJETIVO,
      [("cualidad", ["-al", "-ico", "-oso"]),
       ("participial", ["-ado", "-ido"])]),
   (.VERBO,
      [("primera", ["-ar"]),
       ("derivado", ["-ificar", "-izar"])]),
   (.ADVERB,
      [("modal", ["-mente"])])]

/-- `MARGEN_VALORES` (constants.py). -/
def MARGEN_VALORES : List (String × Nat) :=
  [("IDIOM", 6), ("COLLISION", 5), ("NO_ROOT", 4), ("GAP_DERIVATION", 4),
   ("TRANSLITERACION", 3), ("MAPEO_1_1_ALT", 2), ("MAPEO_1_1_DIRECTO", 1)]

-- ══════════════════════════════════════════════════════════════
-- Python exception model
-- ══════════════════════════════════════════════════════════════

/-- The exceptions the modelled code can raise: list `IndexError`,
`AttributeError` (attribute access on `None`), and the three glossary
errors of glossary.py. -/
inductive PyErr where
  | indexError
  | attributeError
  | sinonimia (token existente propuesta : String)
  | tokenNoRegistrado (token : String) (posicion : Int)
  | registroIncompleto (faltantes sobrantes : List String)
deriving DecidableEq, Repr

/-- Resolve a Python list index (possibly negative) against a list of length
`len`: the actual `Nat` index, or `IndexError`. -/
def pyResolve (len : Nat) (i : Int) : Except PyErr Nat :=
  if 0 ≤ i then
    if i.toNat < len then .ok i.toNat else .error .indexError
  else
    if (-i).toNat ≤ len then .ok (len - (-i).toNat) else .error .indexError

/-- Python `l[i]` (negative indices allowed, `IndexError` possible). -/
def pyGet {α : Type} (l : List α) (i : Int) : Except PyErr α := do
  let j ← pyResolve l.length i
  match l.get? j with
  | some x => pure x
  | none => throw .indexError

/-- Python `l[i] if i < len(l) else None` — the guard used throughout
reparacion.py.  Note the guard does not protect negative indices. -/
def pyGetGuard {α : Type} (l : List α) (i : Int) : Except PyErr (Option α) :=
  if i < (l.length : Int) then (pyGet l i).map some else pure none

/-- Mutation of the cell produced by `l[i] if i < len(l) else None`. -/
def pyModifyGuard {α : Type} (l : List α) (i : Int) (f : α → α) :
    Except PyErr (List α) :=
  if i < (l.length : Int) then do
    let j ← pyResolve l.length i
    pure (listModifyIdx l j f)
  else pure l

-- ══════════════════════════════════════════════════════════════
-- models.py: CeldaMatriz, MatrizFuente, MatrizTarget
-- ══════════════════════════════════════════════════════════════

/-- `CeldaMatriz` (models.py).  The `slot` back-pointer is omitted: the
target-matrix cells modelled here always have `slot=None` in the source and
no modelled operation reads it. -/
structure CeldaMatriz where
  pos : Int
  token_src : String
  token_tgt : Option String
  tipo : String
deriving DecidableEq, Repr

def CeldaMatriz.es_absorbido (c : CeldaMatriz) : Bool := c.tipo == "absorbido"

def CeldaMatriz.es_inyeccion (c : CeldaMatriz) : Bool := c.tipo == "inyeccion"

def CeldaMatriz.es_nulo (c : CeldaMatriz) : Bool := c.tipo == "nulo"

/-- `MatrizFuente` (models.py), restricted to the fields the claims need:
the ordered cells.  `size()` is the number of cells. -/
structure MatrizFuente where
  celdas : List CeldaMatriz
deriving DecidableEq, Repr

def MatrizFuente.size (m : MatrizFuente) : Nat := m.celdas.length

/-- `MatrizTarget` (models.py).  `sz` is the `_size` attribute fixed at
construction; `celdas` the cell list; `inyecciones` the separate list of
injected support cells. -/
structure MatrizTarget where
  sz : Nat
  celdas : List CeldaMatriz
  inyecciones : List CeldaMatriz
deriving DecidableEq, Repr

/-- `MatrizTarget.__init__(size)`. -/
def MatrizTarget.init (size : Nat) : MatrizTarget :=
  { sz := size
    celdas := (List.range size).map
      (fun i => { pos := Int.ofNat i, token_src := "", token_tgt := none, tipo := "normal" })
    inyecciones := [] }

def MatrizTarget.size (m : MatrizTarget) : Nat := m.sz

/-- `MatrizTarget.asignar(pos, token_tgt, tipo)`: guarded by
`0 <= pos < self._size`; out of range it does nothing. -/
def MatrizTarget.asignar (m : MatrizTarget) (pos : Int) (token_tgt : String)
    (tipo : String := "normal") : MatrizTarget :=
  if 0 ≤ pos ∧ pos < (m.sz : Int) then
    let celdas := listModifyIdx m.celdas pos.toNat
      (fun c => { c with token_tgt := some token_tgt, tipo := tipo })
    { m with celdas := celdas }
  else m

/-- `MatrizTarget.marcar_absorbido(pos)`. -/
def MatrizTarget.marcar_absorbido (m : MatrizTarget) (pos : Int) : MatrizTarget :=
  if 0 ≤ pos ∧ pos < (m.sz : Int) then
    let celdas := listModifyIdx m.celdas pos.toNat
      (fun c => { c with tipo := "absorbido", token_tgt := some "[ABSORBIDO]" })
    { m with celdas := celdas }
  else m

/-- `MatrizTarget.marcar_nulo(pos)`. -/
def MatrizTarget.marcar_nulo (m : MatrizTarget) (pos : Int) : MatrizTarget :=
  if 0 ≤ pos ∧ pos < (m.sz : Int) then
    let celdas := listModifyIdx m.celdas pos.toNat (fun c => { c with tipo := "nulo" })
    { m with celdas := celdas }
  else m

/-- `MatrizTarget.insertar_inyeccion(token, pos_referencia)`: appends to the
separate injection list, never touching `celdas`. -/
def MatrizTarget.insertar_inyeccion (m : MatrizTarget) (token : String)
    (pos_referencia : Int) : MatrizTarget :=
  { m with inyecciones := m.inyecciones ++
      [{ pos := pos_referencia, token_src := "", token_tgt := some token,
         tipo := "inyeccion" }] }

/-- `MatrizTarget.obtener_token(pos)`. -/
def MatrizTarget.obtener_token (m : MatrizTarget) (pos : Int) : Option String :=
  if 0 ≤ pos ∧ pos < (m.sz : Int) then
    match m.celdas.get? pos.toNat with
    | some c => c.token_tgt
    | none => none
  else none

-- ══════════════════════════════════════════════════════════════
-- reparacion.py: operators, cohesion checker, repair cascade
-- ══════════════════════════════════════════════════════════════

/-- `ResultadoReparador` (reparacion.py), without the pure `acciones` log. -/
structure ResultadoReparador where
  exito : Bool
  mensaje : String
deriving DecidableEq, Repr

/-- `Operadores.op_insert` (reparacion.py): inject a whitelisted support
token (never a blacklisted one) into the separate injection list. -/
def Operadores.op_insert (m : MatrizTarget) (token : String)
    (pos_referencia : Int) : Bool × MatrizTarget :=
  if token ∉ WHITELIST_INYECCION then (false, m)
  else if token ∈ BLACKLIST_INYECCION then (false, m)
  else (true, m.insertar_inyeccion token pos_referencia)

/-- `Operadores.op_insert_punct` (reparacion.py): append `,` or `;` to the
target token of the cell fetched by `celdas[pos] if pos < len(celdas)`. -/
def Operadores.op_insert_punct (m : MatrizTarget) (puntuacion : String)
    (pos : Int) : Except PyErr (Bool × MatrizTarget) :=
  if !(puntuacion == "," || puntuacion == ";") then pure (false, m)
  else do
    let celdas ← pyModifyGuard m.celdas pos (fun c =>
      if strTruthy c.token_tgt then
        { c with token_tgt := some ((c.token_tgt.getD "") ++ puntuacion) }
      else c)
    pure (true, { m with celdas := celdas })

/-- `Operadores.op_null` (reparacion.py): guarded by
`pos >= len(mtx_t.celdas)`, then delegates to `marcar_nulo`. -/
def Operadores.op_null (m : MatrizTarget) (pos : Int) : Bool × MatrizTarget :=
  if (m.celdas.length : Int) ≤ pos then (false, m)
  else (true, m.marcar_nulo pos)

/-- `VerificadorCohesion._verificar_concordancia` (reparacion.py):
the source is a stub that always returns `True`. -/
def VerificadorCohesion.verificar_concordancia (_m : MatrizTarget)
    (_pos : Int) : Bool := true

/-- `VerificadorCohesion.verificar` (reparacion.py). -/
def VerificadorCohesion.verificar (m : MatrizTarget) (pos : Int) :
    Except PyErr Bool :=
  if (m.celdas.length : Int) ≤ pos then pure false
  else do
    let celda ← pyGet m.celdas pos
    if !strTruthy celda.token_tgt then pure false
    else if celda.es_absorbido then pure true
    else pure (VerificadorCohesion.verificar_concordancia m pos)

/-- `VerificadorCohesion.identificar_problema` (reparacion.py).  Its only
possible answers are `POSICION_INVALIDA`, `TOKEN_FALTANTE` and `None`;
in particular it never returns `FALTA_SOPORTE`. -/
def VerificadorCohesion.identificar_problema (m : MatrizTarget) (pos : Int) :
    Except PyErr (Option String) :=
  if (m.celdas.length : Int) ≤ pos then pure (some "POSICION_INVALIDA")
  else do
    let celda ← pyGet m.celdas pos
    if !strTruthy celda.token_tgt then pure (some "TOKEN_FALTANTE")
    else pure none

/-- The support-injection loop of `_f2_soporte` over the whitelist (only
reachable for problem `FALTA_SOPORTE`, which `identificar_problema` never
produces). -/
def ReparadorSintactico.soporteLoop (pos : Int) :
    MatrizTarget → List String → Except PyErr (Bool × MatrizTarget)
  | m, [] => pure (false, m)
  | m, t :: ts => do
    let (ok₁, m₁) := Operadores.op_insert m t pos
    if ok₁ then do
      let v ← VerificadorCohesion.verificar m₁ pos
      if v then pure (true, m₁) else ReparadorSintactico.soporteLoop pos m₁ ts
    else ReparadorSintactico.soporteLoop pos m ts

/-- `ReparadorSintactico._requiere_puntuacion` (reparacion.py):
punctuation is required before a subordinating token. -/
def ReparadorSintactico.requiere_puntuacion (m : MatrizTarget) (pos : Int) :
    Except PyErr Bool :=
  if pos + 1 < (m.celdas.length : Int) then do
    let sig ← pyGet m.celdas (pos + 1)
    match sig.token_tgt with
    | some s =>
        pure (!(s == "") && decide (pyLower s ∈ ["que", "pero", "sino", "aunque"]))
    | none => pure false
  else pure false

/-- `ReparadorSintactico._f1_bypass` (reparacion.py). -/
def ReparadorSintactico.f1_bypass (m : MatrizTarget) (pos : Int)
    (token_fuente : Bool) : Except PyErr Bool := do
  let celdaOpt ← pyGetGuard m.celdas pos
  match celdaOpt with
  | none => pure false
  | some celda =>
    if celda.es_absorbido then pure true
    else if token_fuente && strTruthy celda.token_tgt then pure true
    else pure false

/-- The punctuation stage of `ReparadorSintactico._f2_soporte`
(reparacion.py): append a comma before a subordinator and re-check
cohesion. -/
def ReparadorSintactico.f2_puntuacion (m : MatrizTarget) (pos : Int) :
    Except PyErr (Bool × MatrizTarget) := do
  let celdaOpt ← pyGetGuard m.celdas pos
  match celdaOpt with
  | none => pure (false, m)
  | some celda =>
    if strTruthy celda.token_tgt then do
      let req ← ReparadorSintactico.requiere_puntuacion m pos
      if req then do
        let (ok₂, m₂) ← Operadores.op_insert_punct m "," pos
        if ok₂ then do
          let v ← VerificadorCohesion.verificar m₂ pos
          if v then pure (true, m₂) else pure (false, m₂)
        else pure (false, m₂)
      else pure (false, m)
    else pure (false, m)

/-- `ReparadorSintactico._f2_soporte` (reparacion.py): identify the
problem, attempt support injection (only for `FALTA_SOPORTE`, which never
occurs), then attempt punctuation. -/
def ReparadorSintactico.f2_soporte (m : MatrizTarget) (pos : Int) :
    Except PyErr (Bool × MatrizTarget) := do
  let problema ← VerificadorCohesion.identificar_problema m pos
  match problema with
  | none => pure (true, m)
  | some p => do
    let (done, m₁) ←
      if p == "FALTA_SOPORTE" then
        ReparadorSintactico.soporteLoop pos m WHITELIST_INYECCION
      else pure (false, m)
    if done then pure (true, m₁)
    else ReparadorSintactico.f2_puntuacion m₁ pos

/-- `ReparadorSintactico._f3_morfologia` (reparacion.py).  The stub
`_detectar_ajuste_necesario` of the source returns `None`, so the morphology
adjustment branch is unreachable and the phase can only fail (after the
possible `IndexError` of the cell fetch). -/
def ReparadorSintactico.f3_morfologia (m : MatrizTarget) (pos : Int) :
    Except PyErr Bool := do
  let celdaOpt ← pyGetGuard m.celdas pos
  match celdaOpt with
  | none => pure false
  | some celda =>
    if !strTruthy celda.token_tgt then pure false
    else pure false

/-- `ReparadorSintactico._f4_nulidad_local` (reparacion.py). -/
def ReparadorSintactico.f4_nulidad_local (m : MatrizTarget) (pos : Int) :
    Except PyErr (Bool × MatrizTarget) := do
  let celdaOpt ← pyGetGuard m.celdas pos
  match celdaOpt with
  | none => pure (false, m)
  | some _ =>
    let (ok₁, m₁) := Operadores.op_null m pos
    if ok₁ then pure (true, m₁) else pure (false, m₁)

/-- `ReparadorSintactico._f5_nulidad_regimen` (reparacion.py): the last
resort, identical in state effect to local nullity (the source simplifies
the régimen to the current position). -/
def ReparadorSintactico.f5_nulidad_regimen (m : MatrizTarget) (pos : Int) :
    Except PyErr (Bool × MatrizTarget) := do
  let celdaOpt ← pyGetGuard m.celdas pos
  match celdaOpt with
  | none => pure (false, m)
  | some _ =>
    let (ok₁, m₁) := Operadores.op_null m pos
    if ok₁ then pure (true, m₁) else pure (false, m₁)

/-- The filtering loop of `_f6_limpieza`: drop injected cells whose
lower-cased token occurs among the source tokens; Python raises
`AttributeError` if an injected cell has `token_tgt = None`. -/
def ReparadorSintactico.limpiezaFilter (fuente : List String) :
    List CeldaMatriz → Except PyErr (List CeldaMatriz)
  | [] => pure []
  | c :: cs => do
    match c.token_tgt with
    | none => throw .attributeError
    | some t => do
      let rest ← ReparadorSintactico.limpiezaFilter fuente cs
      if pyLower t ∈ fuente then pure rest else pure (c :: rest)

/-- `ReparadorSintactico._f6_limpieza` (reparacion.py): remove injected
support tokens duplicating a source token. -/
def ReparadorSintactico.f6_limpieza (m : MatrizTarget) :
    Except PyErr MatrizTarget := do
  let tokens_fuente :=
    (m.celdas.filter (fun c => !(c.token_src == ""))).map
      (fun c => pyLower c.token_src)
  let inys ← ReparadorSintactico.limpiezaFilter tokens_fuente m.inyecciones
  pure { m with inyecciones := inys }

/-- `ReparadorSintactico.reparar` (reparacion.py): the cascade.  Each phase
returns as soon as it succeeds; the cleanup phase `_f6_limpieza` is reached
only when every phase F1 - F5 has failed. -/
def ReparadorSintactico.reparar (m : MatrizTarget) (pos : Int)
    (token_fuente : Bool := true) :
    Except PyErr (ResultadoReparador × MatrizTarget) := do
  let b1 ← ReparadorSintactico.f1_bypass m pos token_fuente
  if b1 then pure ({ exito := true, mensaje := "REPAIR-OK (BYPASS)" }, m)
  else do
    let (b2, m2) ← ReparadorSintactico.f2_soporte m pos
    if b2 then pure ({ exito := true, mensaje := "REPAIR-OK (SOPORTE)" }, m2)
    else do
      let b3 ← ReparadorSintactico.f3_morfologia m2 pos
      if b3 then pure ({ exito := true, mensaje := "REPAIR-OK (MORFOLOGÍA)" }, m2)
      else do
        let (b4, m4) ← ReparadorSintactico.f4_nulidad_local m2 pos
        if b4 then pure ({ exito := true, mensaje := "REPAIR-OK (NULIDAD_LOCAL)" }, m4)
        else do
          let (b5, m5) ← ReparadorSintactico.f5_nulidad_regimen m4 pos
          if b5 then
            pure ({ exito := true, mensaje := "REPAIR-OK (NULIDAD_RÉGIMEN (forzado))" }, m5)
          else do
            let m6 ← ReparadorSintactico.f6_limpieza m5
            pure ({ exito := true, mensaje := "REPAIR-OK" }, m6)

-- ══════════════════════════════════════════════════════════════
-- glossary.py: Glosario and its phases
-- ══════════════════════════════════════════════════════════════

/-- Generic insertion-ordered dict lookup. -/
def dictGet {κ α : Type} [BEq κ] (l : List (κ × α)) (k : κ) : Option α :=
  match l.find? (fun p => p.1 == k) with
  | some p => some p.2
  | none => none

/-- Generic insertion-ordered dict write: update in place if the key exists,
else append (Python `d[k] = v`). -/
def dictSet {κ α : Type} [BEq κ] (l : List (κ × α)) (k : κ) (v : α) :
    List (κ × α) :=
  if l.any (fun p => p.1 == k) then
    l.map (fun p => if p.1 == k then (k, v) else p)
  else l ++ [(k, v)]

/-- `Locucion` (models.py). -/
structure Locucion where
  id : String
  src : String
  componentes : List String
  posiciones : List Int
  tgt : Option String := none
  status : String := "UNIDAD_COMPLEJA"
deriving DecidableEq, Repr

/-- `EntradaGlosario` (models.py).  `func_roles` is declared by the source
but never populated by any code path; it is kept for structural fidelity. -/
structure EntradaGlosario where
  token_src : String
  categoria : TokenCategoria
  token_tgt : Option String := none
  status : TokenStatus := .PENDIENTE
  margen : Nat := 0
  ocurrencias : List Nat := []
  func_roles : List (Nat × FuncRole) := []
  etiqueta : Option String := none
  traducciones_por_funcion : List (FuncRole × String) := []
deriving DecidableEq, Repr

def EntradaGlosario.es_nucleo (e : EntradaGlosario) : Bool :=
  e.categoria == .NUCLEO

def EntradaGlosario.es_particula (e : EntradaGlosario) : Bool :=
  e.categoria == .PARTICULA

/-- `Glosario` (glossary.py): the entry dict, the locution dict, the
locution counter and the seal flag.  The `_historial` log and the pending
consultation list are omitted (pure logging / no claim reads them). -/
structure Glosario where
  entradas : List (String × EntradaGlosario) := []
  locuciones : List (String × Locucion) := []
  locucion_counter : Nat := 0
  sellado : Bool := false
deriving DecidableEq, Repr

def Glosario.obtener_entrada (g : Glosario) (token : String) :
    Option EntradaGlosario :=
  alistGet g.entradas token

def Glosario.obtener_locuciones (g : Glosario) : List (String × Locucion) :=
  g.locuciones

def Glosario.esta_sellado (g : Glosario) : Bool := g.sellado

/-- `Glosario._token_en_locucion` (glossary.py). -/
def Glosario.token_en_locucion (g : Glosario) (token : String)
    (posicion : Int) : Option String :=
  match g.locuciones.find? (fun p =>
      p.2.componentes.contains token && p.2.posiciones.contains posicion) with
  | some p => some p.1
  | none => none

/-- `Glosario.fase_b_verificar_existencia` (glossary.py):
`TokenNoRegistradoError` for an unregistered token. -/
def Glosario.fase_b_verificar_existencia (g : Glosario) (token : String)
    (posicion : Int) : Except PyErr Bool :=
  if (alistGet g.entradas token).isSome then pure true
  else throw (.tokenNoRegistrado token posicion)

/-- `Glosario.fase_b_verificar_bloqueo` (glossary.py). -/
def Glosario.fase_b_verificar_bloqueo (g : Glosario) (token : String)
    (posicion : Int) : Option String :=
  match g.token_en_locucion token posicion with
  | some loc_id => some loc_id
  | none =>
    match alistGet g.entradas token with
    | some e =>
      if e.status == .BLOQUEADO then
        match g.locuciones.find? (fun p => p.2.componentes.contains token) with
        | some p => some p.1
        | none => none
      else none
    | none => none

/-- `Glosario.fase_b_verificar_sinonimia` (glossary.py): only nucleus
entries with a non-`None`, non-empty target are checked; a different
proposal raises `SinonimiaError`. -/
def Glosario.fase_b_verificar_sinonimia (g : Glosario) (token : String)
    (tgt_propuesto : String) : Except PyErr Bool :=
  match alistGet g.entradas token with
  | none => pure true
  | some e =>
    if e.categoria ≠ .NUCLEO then pure true
    else
      match e.token_tgt with
      | some t =>
        if !(t == "") && tgt_propuesto ≠ t then
          throw (.sinonimia token t tgt_propuesto)
        else pure true
      | none => pure true

/-- `Glosario.fase_b_asignar` (glossary.py).  For an already-translated
nucleus it re-checks synonymy and returns without mutating; otherwise it
writes the translation (and, for a particle with a function role, also the
per-function map). -/
def Glosario.fase_b_asignar (g : Glosario) (token tgt : String)
    (margen : Nat := 1) (etiqueta : Option String := none)
    (func_role : Option FuncRole := none) : Except PyErr (Bool × Glosario) :=
  match alistGet g.entradas token with
  | none => pure (false, g)
  | some e =>
    if e.es_nucleo && strTruthy e.token_tgt then do
      let _ ← g.fase_b_verificar_sinonimia token tgt
      pure (true, g)
    else
      let e₁ :=
        match func_role with
        | some r =>
          if e.es_particula then
            let tpf := dictSet e.traducciones_por_funcion r tgt
            { e with traducciones_por_funcion := tpf }
          else e
        | none => e
      let e₂ :=
        { e₁ with token_tgt := some tgt, status := .ASIGNADO, margen := margen, etiqueta := etiqueta }
      pure (true, { g with entradas := alistSet g.entradas token e₂ })

/-- `Glosario.obtener_traduccion` (glossary.py). -/
def Glosario.obtener_traduccion (g : Glosario) (token : String)
    (func_role : Option FuncRole := none) : Option String :=
  match alistGet g.entradas token with
  | none => none
  | some e =>
    match func_role with
    | some r =>
      match dictGet e.traducciones_por_funcion r with
      | some t => some t
      | none => e.token_tgt
    | none => e.token_tgt

/-- Characters matched by the `\w` of the word regex of `re.findall`
(glossary.py), restricted to the ASCII fragment used by this development. -/
def isWordChar (c : Char) : Bool := c.isAlphanum || c == '_'

/-- Splitting a character stream into maximal runs of word characters;
`cur` accumulates the (reversed) run being read. -/
def splitWordsAux : List Char → List Char → List String
  | [], cur => if cur.isEmpty then [] else [String.mk cur.reverse]
  | c :: cs, cur =>
    if isWordChar c then splitWordsAux cs (c :: cur)
    else if cur.isEmpty then splitWordsAux cs []
    else String.mk cur.reverse :: splitWordsAux cs []

/-- The word tokens of a text: maximal runs of word characters.  Models
the `re.findall` word-regex call of glossary.py `_a4_verificar_completitud`. -/
def findallWords (s : String) : List String := splitWordsAux s.toList []

/-- The registered token set of `_a4_verificar_completitud`: the entry keys
plus every locution component. -/
def Glosario.tokensRegistrados (g : Glosario) : List String :=
  g.entradas.map (fun p => p.1) ++ (g.locuciones.map (fun p => p.2.componentes)).flatten

/-- First-occurrence deduplication (the element order chosen to model a
Python `set`, whose iteration order is unspecified). -/
def dedupFirst (seen : List String) : List String → List String
  | [] => []
  | x :: xs =>
    if seen.contains x then dedupFirst seen xs
    else x :: dedupFirst (x :: seen) xs

/-- `Glosario._a4_verificar_completitud` (glossary.py): raises
`RegistroIncompletoError` iff some text token is unregistered; on success
seals the glossary.  Tokens registered but absent from the text
(`sobrantes`) are only reported inside the error, never raised on. -/
def Glosario.a4_verificar_completitud (g : Glosario) (texto : String) :
    Except PyErr (Bool × Glosario) :=
  let tokens_texto := dedupFirst [] (findallWords texto)
  let registrados := dedupFirst [] g.tokensRegistrados
  let faltantes := tokens_texto.filter (fun t => !registrados.contains t)
  let sobrantes := registrados.filter (fun t => !tokens_texto.contains t)
  if !faltantes.isEmpty then throw (.registroIncompleto faltantes sobrantes)
  else pure (true, { g with sellado := true })

-- ── Export / import ──────────────────────────────────────────
-- `exportar_json` builds a data dict and serializes it with `json.dumps`;
-- `importar_json` parses with `json.loads` and rebuilds.  `dumps`/`loads`
-- round-trip the dict verbatim (and enum names map bijectively to members),
-- so the pair is modelled at the level of that intermediate data; the
-- `exportado` timestamp is dropped because the importer ignores it.

/-- The per-entry record written by `Glosario.exportar_json` (glossary.py).
Note that `func_roles` and `traducciones_por_funcion` are NOT exported. -/
structure EntradaExport where
  categoria : TokenCategoria
  token_tgt : Option String
  status : TokenStatus
  margen : Nat
  ocurrencias : List Nat
  etiqueta : Option String
deriving DecidableEq, Repr

/-- The per-locution record written by `Glosario.exportar_json`. -/
structure LocucionExport where
  src : String
  tgt : Option String
  componentes : List String
  posiciones : List Int
deriving DecidableEq, Repr

/-- The serialized snapshot produced by `Glosario.exportar_json`. -/
structure GlosarioData where
  entradas : List (String × EntradaExport)
  locuciones : List (String × LocucionExport)
  sellado : Bool
deriving DecidableEq, Repr

/-- `Glosario.exportar_json` (glossary.py), at the data-dict level. -/
def Glosario.exportar_data (g : Glosario) : GlosarioData :=
  { entradas := g.entradas.map (fun p =>
      (p.1, { categoria := p.2.categoria, token_tgt := p.2.token_tgt,
              status := p.2.status, margen := p.2.margen,
              ocurrencias := p.2.ocurrencias, etiqueta := p.2.etiqueta }))
    locuciones := g.locuciones.map (fun p =>
      (p.1, { src := p.2.src, tgt := p.2.tgt,
              componentes := p.2.componentes, posiciones := p.2.posiciones }))
    sellado := g.sellado }

/-- `Glosario.importar_json` (glossary.py), at the data-dict level: rebuilds
entries and locutions from the exported fields only; everything else takes
the constructor defaults of a fresh `Glosario`. -/
def Glosario.importar_data (d : GlosarioData) : Glosario :=
  { entradas := d.entradas.map (fun p =>
      (p.1, { token_src := p.1, categoria := p.2.categoria,
              token_tgt := p.2.token_tgt, status := p.2.status,
              margen := p.2.margen, ocurrencias := p.2.ocurrencias,
              etiqueta := p.2.etiqueta }))
    locuciones := d.locuciones.map (fun p =>
      (p.1, { id := p.1, src := p.2.src, tgt := p.2.tgt,
              componentes := p.2.componentes, posiciones := p.2.posiciones }))
    locucion_counter := 0
    sellado := d.sellado }

/-- `import(export(g))`: the round-trip of the claim. -/
def Glosario.roundtrip (g : Glosario) : Glosario :=
  Glosario.importar_data g.exportar_data

-- ══════════════════════════════════════════════════════════════
-- models.py (consultation structures) and casos_dificiles.py
-- ══════════════════════════════════════════════════════════════

/-- `ConsultaCodigo` (constants.py). -/
inductive ConsultaCodigo where
  | C1_CONFLICTO_PROTOCOLAR
  | C2_COLLISION_DUDA
  | C3_POSIBLE_LOCUCION
  | C4_SINONIMIA
  | C5_TOKEN_NO_REGISTRADO
  | C6_ELEMENTO_DUDOSO
  | C7_REGISTRO_INCOMPLETO
deriving DecidableEq, Repr

/-- `Opcion` (models.py). -/
structure Opcion where
  letra : String
  texto : String
  justificacion : Option String := none
deriving DecidableEq, Repr

/-- `Consulta` (models.py). -/
structure Consulta where
  numero : Nat
  codigo : ConsultaCodigo
  contexto : String
  token_o_frase : String
  opciones : List Opcion
  recomendacion : String
deriving DecidableEq, Repr

/-- `MorfologiaFuente` (models.py). -/
structure MorfologiaFuente where
  numero : String := "singular"
  genero : Option String := none
  persona : Option Int := none
  tiempo : Option String := none
  voz : Option String := none
  caso : Option String := none
  estado : Option String := none
deriving DecidableEq, Repr

/-- `MorfologiaTarget` (models.py). -/
structure MorfologiaTarget where
  numero : String := "singular"
  genero : String := "masculino"
  persona : Option Int := none
  tiempo : Option String := none
  voz : Option String := none
deriving DecidableEq, Repr

/-- `SlotN` (models.py). -/
structure SlotN where
  token_src : String
  cat_src : CategoriaGramatical
  morph_src : MorfologiaFuente
  pos_index : Int
  status : TokenStatus := .PENDIENTE
  token_tgt : Option String := none
  cat_tgt : Option CategoriaGramatical := none
  morph_tgt : Option MorfologiaTarget := none
  locucion_id : Option String := none
deriving DecidableEq, Repr

/-- `SlotN.bloquear` (models.py). -/
def SlotN.bloquear (s : SlotN) (loc_id : String) : SlotN :=
  { s with status := .BLOQUEADO, locucion_id := some loc_id }

/-- `CandidatoEtimologico` (nucleos.py).  Every field is always present, so
the `hasattr` guards of casos_dificiles.py are always true. -/
structure CandidatoEtimologico where
  termino : String
  origen : String
  raiz : String
  derivacion_existe : Bool := true
  es_metafora_viable : Bool := false
  prioridad : Int := 0
deriving DecidableEq, Repr

/-- `ResultadoCasoDificil` (casos_dificiles.py). -/
structure ResultadoCasoDificil where
  n_base : String
  reason : Reason
  exito : Bool := true
  requiere_consulta : Bool := false
  consulta : Option Consulta := none
  mensaje : String := ""
deriving DecidableEq, Repr

/-- `Transliterador._MAPA_DIN_31635` (casos_dificiles.py). -/
def MAPA_DIN_31635 : List (Char × String) :=
  [('ء', "ʾ"), ('ا', "ā"), ('ب', "b"), ('ت', "t"), ('ث', "ṯ"), ('ج', "ǧ"),
   ('ح', "ḥ"), ('خ', "ḫ"), ('د', "d"), ('ذ', "ḏ"), ('ر', "r"), ('ز', "z"),
   ('س', "s"), ('ش', "š"), ('ص', "ṣ"), ('ض', "ḍ"), ('ط', "ṭ"), ('ظ', "ẓ"),
   ('ع', "ʿ"), ('غ', "ġ"), ('ف', "f"), ('ق', "q"), ('ك', "k"), ('ل', "l"),
   ('م', "m"), ('ن', "n"), ('ه', "h"), ('و', "w"), ('ي', "y"), ('ة', "a"),
   ('ى', "ā"), ('َ', "a"), ('ُ', "u"), ('ِ', "i")]

/-- `Transliterador.transliterar` (casos_dificiles.py): mapped characters
are replaced, every other character (ASCII or not) is kept. -/
def Transliterador.transliterar (texto : String) : String :=
  String.join (texto.toList.map (fun ch =>
    match dictGet MAPA_DIN_31635 ch with
    | some r => r
    | none => String.singleton ch))

/-- Python `s.rstrip("-")`. -/
def pyRstripDash (s : String) : String :=
  String.mk ((s.toList.reverse.dropWhile (fun c => c == '-')).reverse)

/-- Python `s.lstrip("-")`. -/
def pyLstripDash (s : String) : String :=
  String.mk (s.toList.dropWhile (fun c => c == '-'))

/-- Python `s.strip("-")`. -/
def pyStripDash (s : String) : String := pyLstripDash (pyRstripDash s)

/-- `GeneradorSufijos.obtener_sufijo` (casos_dificiles.py): the first suffix
of the requested subtype when given and present, else the first suffix of
the first non-empty subtype list of the category, else `"-ado"`.  The empty
heads are unreachable on the fixed `SUFIJOS` table (Python would raise
`IndexError` there); `"-ado"` stands in to keep the function total. -/
def GeneradorSufijos.obtener_sufijo (categoria : CategoriaGramatical)
    (subtipo : Option String := none) : String :=
  match dictGet SUFIJOS categoria with
  | none => "-ado"
  | some sufijos_cat =>
    let bySubtipo : Option (List String) :=
      match subtipo with
      | some st => if !(st == "") then dictGet sufijos_cat st else none
      | none => none
    match bySubtipo with
    | some lst => lst.headD "-ado"
    | none =>
      match sufijos_cat.find? (fun p => !p.2.isEmpty) with
      | some p => p.2.headD "-ado"
      | none => "-ado"

/-- `GeneradorSufijos.aplicar_sufijo` (casos_dificiles.py). -/
def GeneradorSufijos.aplicar_sufijo (raiz sufijo : String) : String :=
  let raiz_limpia := pyRstripDash raiz
  let vocales : List String := ["a", "e", "i", "o", "u"]
  let raiz₂ :=
    if vocales.any (fun v => pyEndsWith raiz_limpia v) &&
       vocales.any (fun v => pyStartsWith sufijo v) then
      String.mk raiz_limpia.toList.dropLast
    else raiz_limpia
  raiz₂ ++ pyLstripDash sufijo

/-- `BaseEtimologicaLocuciones._TRADUCCIONES_ETYM` (casos_dificiles.py). -/
def TRADUCCIONES_ETYM : List (String × String) :=
  [("bi", "por"), ("li", "para"), ("fi", "en"), ("min", "de"),
   ("ʿan", "sobre"), ("ʿalā", "sobre"), ("ilā", "hacia"),
   ("ʿayn", "ojo"), ("yad", "mano"), ("qalb", "corazón"), ("nafs", "alma"),
   ("rūḥ", "espíritu"), ("wajh", "rostro"), ("lisān", "lengua"),
   ("raʾs", "cabeza"),
   ("hā", "suyo"), ("hu", "suyo"), ("humā", "suyos-dos"), ("hum", "suyos"),
   ("hunna", "suyas"), ("ka", "tuyo"), ("ki", "tuya"),
   ("kumā", "vuestros-dos"), ("kum", "vuestros"), ("kunna", "vuestras"),
   ("ī", "mío"), ("nā", "nuestro"),
   ("wāḥid", "uno"), ("wāḥida", "una")]

/-- `BaseEtimologicaLocuciones.obtener_traduccion_etym`
(casos_dificiles.py): table lookup on the cleaned component, else
transliteration of the original component. -/
def obtener_traduccion_etym (componente : String) : String :=
  let comp_limpio := pyStripDash (pyLower componente)
  match dictGet TRADUCCIONES_ETYM comp_limpio with
  | some t => t
  | none => Transliterador.transliterar componente

-- ── ProcesadorCasosDificiles (P6) ────────────────────────────

/-- `ProcesadorCasosDificiles._estrategia_no_root` (casos_dificiles.py):
transliterate the source token and attach the category suffix. -/
def ProcesadorCasosDificiles.estrategia_no_root (slot : SlotN) :
    ResultadoCasoDificil :=
  let translit := Transliterador.transliterar slot.token_src
  let sufijo := GeneradorSufijos.obtener_sufijo slot.cat_src none
  let n_base := GeneradorSufijos.aplicar_sufijo translit sufijo
  { n_base := n_base, reason := .NO_ROOT,
    mensaje := "Neologismo radical: " ++ slot.token_src ++ " → " ++ n_base }

/-- `ProcesadorCasosDificiles._palabra_existe` (casos_dificiles.py). -/
def ProcesadorCasosDificiles.palabra_existe (palabra : String) : Bool :=
  pyLower palabra ∈
    ["intelectual", "intelectualidad", "inteligente",
     "racional", "racionalidad", "espiritual"]

/-- `ProcesadorCasosDificiles._estrategia_gap_derivation`
(casos_dificiles.py). -/
def ProcesadorCasosDificiles.estrategia_gap_derivation (slot : SlotN)
    (candidatos : List CandidatoEtimologico) : ResultadoCasoDificil :=
  let raiz_es : Option String :=
    match candidatos with
    | c :: _ => some c.raiz
    | [] => none
  match raiz_es with
  | none => ProcesadorCasosDificiles.estrategia_no_root slot
  | some r =>
    if r == "" then ProcesadorCasosDificiles.estrategia_no_root slot
    else
      let sufijo := GeneradorSufijos.obtener_sufijo slot.cat_src (some "participial")
      let n_base := GeneradorSufijos.aplicar_sufijo r sufijo
      if ProcesadorCasosDificiles.palabra_existe n_base then
        ProcesadorCasosDificiles.estrategia_no_root slot
      else
        { n_base := n_base, reason := .GAP_DERIVATION,
          mensaje := "Neologismo derivativo: " ++ r ++ " + " ++ sufijo ++ " → " ++ n_base }

/-- The score of `_evaluar_candidatos` (casos_dificiles.py):
`2 × prioridad + 5 (metaphor viable) + 3 (derivation exists)`. -/
def scoreCandidato (c : CandidatoEtimologico) : Int :=
  2 * c.prioridad + (if c.es_metafora_viable then 5 else 0) +
    (if c.derivacion_existe then 3 else 0)

/-- `ProcesadorCasosDificiles._evaluar_candidatos` (casos_dificiles.py):
running best (strict improvement over a starting score of 0, seeded with
the first candidate); the winner is returned only when its score strictly
exceeds 3, otherwise `None` signals a user consultation. -/
def ProcesadorCasosDificiles.evaluar_candidatos
    (candidatos : List CandidatoEtimologico) : Option CandidatoEtimologico :=
  match candidatos with
  | [] => none
  | c0 :: _ =>
    let best := candidatos.foldl
      (fun (acc : CandidatoEtimologico × Int) c =>
        if scoreCandidato c > acc.2 then (c, scoreCandidato c) else acc)
      (c0, 0)
    if best.2 > 3 then some best.1 else none

/-- `ProcesadorCasosDificiles._crear_consulta_collision`
(casos_dificiles.py): up to five lettered options, recommendation `A`;
`npend` is the length of the pending-consultation list. -/
def ProcesadorCasosDificiles.crear_consulta_collision (slot : SlotN)
    (candidatos : List CandidatoEtimologico) (npend : Nat) : Consulta :=
  let opciones := (candidatos.take 5).enum.map (fun p =>
    { letra := String.singleton (Char.ofNat (65 + p.1)), texto := p.2.termino,
      justificacion := some ("Origen: " ++ p.2.origen) })
  { numero := npend + 1, codigo := .C2_COLLISION_DUDA,
    contexto := "Múltiples candidatos para \x27" ++ slot.token_src ++ "\x27",
    token_o_frase := slot.token_src, opciones := opciones,
    recomendacion := "A" }

/-- `ProcesadorCasosDificiles._estrategia_collision` (casos_dificiles.py). -/
def ProcesadorCasosDificiles.estrategia_collision (slot : SlotN)
    (candidatos : List CandidatoEtimologico) (g : Glosario) (npend : Nat) :
    ResultadoCasoDificil :=
  if candidatos.isEmpty then ProcesadorCasosDificiles.estrategia_no_root slot
  else
    match candidatos.find? (fun c => c.es_metafora_viable) with
    | some cand =>
      { n_base := cand.termino, reason := .COLLISION,
        mensaje := "Preferencia etimológica (metáfora): " ++ cand.termino }
    | none =>
      match ProcesadorCasosDificiles.evaluar_candidatos candidatos with
      | some mejor =>
        let conflicto :=
          match g.obtener_entrada slot.token_src with
          | some e => strTruthy e.token_tgt && e.token_tgt != some mejor.termino
          | none => false
        if conflicto then
          let translit := Transliterador.transliterar slot.token_src
          { n_base := translit, reason := .COLLISION,
            mensaje := "Transliteración para distinguir: " ++ translit }
        else
          { n_base := mejor.termino, reason := .COLLISION,
            mensaje := "Mejor candidato: " ++ mejor.termino }
      | none =>
        let consulta := ProcesadorCasosDificiles.crear_consulta_collision slot candidatos npend
        { n_base :=
            match candidatos with
            | c :: _ => c.termino
            | [] => slot.token_src
          reason := .COLLISION, requiere_consulta := true,
          consulta := some consulta,
          mensaje := "Requiere decisión del usuario" }

/-- `ProcesadorCasosDificiles._estrategia_idiom` (casos_dificiles.py):
reuse the cached locution translation, else build the hyphen-joined
etymological compound and cache it onto the (shared) locution object. -/
def ProcesadorCasosDificiles.estrategia_idiom (slot : SlotN) (g : Glosario) :
    ResultadoCasoDificil × Glosario :=
  match g.obtener_locuciones.find? (fun p => p.2.componentes.contains slot.token_src) with
  | none => (ProcesadorCasosDificiles.estrategia_no_root slot, g)
  | some p =>
    let loc := p.2
    if strTruthy loc.tgt then
      ({ n_base := loc.tgt.getD "", reason := .IDIOM,
         mensaje := "Locución existente: " ++ loc.tgt.getD "" }, g)
    else
      let partes := loc.componentes.map obtener_traduccion_etym
      let n_base := String.intercalate "-" partes
      let loc₂ := { loc with tgt := some n_base }
      ({ n_base := n_base, reason := .IDIOM,
         mensaje := "Locución: " ++ loc.src ++ " → " ++ n_base },
       { g with locuciones := dictSet g.locuciones p.1 loc₂ })

/-- `ProcesadorCasosDificiles._registrar_en_glosario` (casos_dificiles.py):
register the strategy result with the margin of the reason tag; the
delegated `fase_b_asignar` re-raises `SinonimiaError` for a nucleus already
mapped to a different value. -/
def ProcesadorCasosDificiles.registrar_en_glosario (slot : SlotN)
    (resultado : ResultadoCasoDificil) (g : Glosario) : Except PyErr Glosario := do
  let margen := (dictGet MARGEN_VALORES resultado.reason.name).getD 3
  let (_, g₂) ← g.fase_b_asignar slot.token_src resultado.n_base margen
      (some resultado.reason.name) none
  pure g₂

/-- `ProcesadorCasosDificiles.procesar` (casos_dificiles.py): dispatch on
the reason, then register the result unless a consultation is required. -/
def ProcesadorCasosDificiles.procesar (slot : SlotN) (reason : Reason)
    (g : Glosario) (candidatos : List CandidatoEtimologico := [])
    (npend : Nat := 0) : Except PyErr (ResultadoCasoDificil × Glosario) := do
  let (resultado, g₁) :=
    match reason with
    | .NO_ROOT => (ProcesadorCasosDificiles.estrategia_no_root slot, g)
    | .GAP_DERIVATION =>
      (ProcesadorCasosDificiles.estrategia_gap_derivation slot candidatos, g)
    | .COLLISION =>
      (ProcesadorCasosDificiles.estrategia_collision slot candidatos g npend, g)
    | .IDIOM => ProcesadorCasosDificiles.estrategia_idiom slot g
  if resultado.exito && !resultado.requiere_consulta then do
    let g₂ ← ProcesadorCasosDificiles.registrar_en_glosario slot resultado g₁
    pure (resultado, g₂)
  else pure (resultado, g₁)

-- ══════════════════════════════════════════════════════════════
-- nucleos.py: ProcesadorNucleos (P4)
-- ══════════════════════════════════════════════════════════════

/-- `ResultadoNucleo` (nucleos.py). -/
structure ResultadoNucleo where
  exito : Bool
  token_tgt : Option String := none
  morph_tgt : Option MorfologiaTarget := none
  bloqueado : Bool := false
  restart : Bool := false
  reason : Option Reason := none
  mensaje : String := ""
deriving DecidableEq, Repr

/-- `ProcesadorNucleos._pluralizar` (nucleos.py). -/
def ProcesadorNucleos.pluralizar (termino : String) : String :=
  if ["a", "e", "i", "o", "u"].any (fun v => pyEndsWith termino v) then
    termino ++ "s"
  else if ["s", "x", "z"].any (fun v => pyEndsWith termino v) then
    (if pyEndsWith termino "z" then termino ++ "es" else termino)
  else termino ++ "es"

/-- `ProcesadorNucleos._adaptar_genero` (nucleos.py). -/
def ProcesadorNucleos.adaptar_genero (termino : String)
    (_genero_src : String) : String :=
  if pyEndsWith termino "a" then "femenino"
  else if pyEndsWith termino "o" then "masculino"
  else "masculino"

/-- `ProcesadorNucleos._inferir_genero` (nucleos.py). -/
def ProcesadorNucleos.inferir_genero (termino : String) : String :=
  if pyEndsWith termino "a" && !(pyEndsWith termino "ma" || pyEndsWith termino "ta") then
    "femenino"
  else if ["ción", "sión", "dad", "tad", "tud"].any (fun s => pyEndsWith termino s) then
    "femenino"
  else "masculino"

/-- `ProcesadorNucleos._conjugar_persona` (nucleos.py): identity stub. -/
def ProcesadorNucleos.conjugar_persona (termino : String) (_persona : Int) :
    String := termino

/-- `ProcesadorNucleos._conjugar_tiempo` (nucleos.py): identity stub. -/
def ProcesadorNucleos.conjugar_tiempo (termino : String) (_tiempo : String) :
    String := termino

/-- `ProcesadorNucleos._f5_morfologia` (nucleos.py): apply number, gender,
person, tense and voice to the base term.  Python truthiness guards the
optional fields (`0` and `""` count as absent). -/
def ProcesadorNucleos.f5_morfologia (n_base : String)
    (morph : MorfologiaFuente) : String × MorfologiaTarget :=
  let (numero, n₁) :=
    if morph.numero == "singular" then ("singular", n_base)
    else if morph.numero == "dual" then ("plural", ProcesadorNucleos.pluralizar n_base)
    else if morph.numero == "plural" then ("plural", ProcesadorNucleos.pluralizar n_base)
    else ("singular", n_base)
  let genero :=
    match morph.genero with
    | some gs =>
      if !gs.isEmpty then ProcesadorNucleos.adaptar_genero n_base gs
      else ProcesadorNucleos.inferir_genero n_base
    | none => ProcesadorNucleos.inferir_genero n_base
  let (persona, n₂) :=
    match morph.persona with
    | some p =>
      if p ≠ 0 then (some p, ProcesadorNucleos.conjugar_persona n₁ p)
      else (none, n₁)
    | none => (none, n₁)
  let (tiempo, n₃) :=
    match morph.tiempo with
    | some t =>
      if !t.isEmpty then (some t, ProcesadorNucleos.conjugar_tiempo n₂ t)
      else (none, n₂)
    | none => (none, n₂)
  let voz :=
    match morph.voz with
    | some v => if !v.isEmpty then some v else none
    | none => none
  (n₃, { numero := numero, genero := genero, persona := persona,
         tiempo := tiempo, voz := voz })

/-- `ProcesadorNucleos._f1_verificar_bloqueo` (nucleos.py): slot already
locked, or the glossary knows a locution locking it (the slot is then
locked in place). -/
def ProcesadorNucleos.f1_verificar_bloqueo (slot : SlotN) (g : Glosario) :
    Bool × SlotN :=
  if slot.status == .BLOQUEADO then (true, slot)
  else
    match g.fase_b_verificar_bloqueo slot.token_src slot.pos_index with
    | some loc_id => (true, slot.bloquear loc_id)
    | none => (false, slot)

/-- `ProcesadorNucleos._f2_cache_check` (nucleos.py): reuse the glossary
target of an entry whose status is `ASIGNADO`. -/
def ProcesadorNucleos.f2_cache_check (slot : SlotN) (g : Glosario) :
    Option String :=
  match g.obtener_entrada slot.token_src with
  | some e => if e.status == .ASIGNADO then e.token_tgt else none
  | none => none

/-- `ProcesadorNucleos._manejar_caso_dificil` (nucleos.py), in the wired
configuration of main.py where the P6 processor is injected: delegate to
`ProcesadorCasosDificiles.procesar` and return its `n_base` with the
reason. -/
def ProcesadorNucleos.manejar_caso_dificil (slot : SlotN) (reason : Reason)
    (g : Glosario) (candidatos : List CandidatoEtimologico) (npend : Nat) :
    Except PyErr ((String × Option Reason) × Glosario) := do
  let (resultado, g₂) ← ProcesadorCasosDificiles.procesar slot reason g candidatos npend
  pure ((resultado.n_base, some reason), g₂)

/-- `ProcesadorNucleos._f4_seleccion` (nucleos.py): zero candidates →
`NO_ROOT`; several → first-candidate metaphor preference or `COLLISION`;
exactly one → direct acceptance unless its derivation is missing
(`GAP_DERIVATION`). -/
def ProcesadorNucleos.f4_seleccion (slot : SlotN)
    (candidatos : List CandidatoEtimologico) (g : Glosario) (npend : Nat) :
    Except PyErr ((String × Option Reason) × Glosario) :=
  match candidatos with
  | [] => ProcesadorNucleos.manejar_caso_dificil slot .NO_ROOT g [] npend
  | [cand] =>
    if !cand.derivacion_existe then
      ProcesadorNucleos.manejar_caso_dificil slot .GAP_DERIVATION g [] npend
    else pure ((cand.termino, none), g)
  | primer :: _ :: _ =>
    if primer.es_metafora_viable then pure ((primer.termino, none), g)
    else ProcesadorNucleos.manejar_caso_dificil slot .COLLISION g candidatos npend

/-- `ProcesadorNucleos._calcular_margen` (nucleos.py). -/
def ProcesadorNucleos.calcular_margen : Reason → Nat
  | .IDIOM => 6
  | .COLLISION => 5
  | .NO_ROOT => 4
  | .GAP_DERIVATION => 4

/-- `ProcesadorNucleos.procesar` (nucleos.py), parameterized by the external
candidate source `buscar` (`BaseEtimologica.buscar_raices`).  The body runs
in `Except`; the `try/except` of the source catches every error into a
failure `ResultadoNucleo` (on those caught paths no prior in-place mutation
of slot or glossary has happened, so returning the originals is exact). -/
def ProcesadorNucleos.procesar (buscar : String → List CandidatoEtimologico)
    (slot : SlotN) (g : Glosario) (npend : Nat := 0) :
    ResultadoNucleo × SlotN × Glosario :=
  let body : Except PyErr (ResultadoNucleo × SlotN × Glosario) := do
    let (bloqueado, slot₁) := ProcesadorNucleos.f1_verificar_bloqueo slot g
    if bloqueado then
      pure ({ exito := true, bloqueado := true,
              mensaje := "Token bloqueado - parte de locución" }, slot₁, g)
    else do
      let (n_base, reason, g₂) ←
        match ProcesadorNucleos.f2_cache_check slot₁ g with
        | some nb => pure (nb, (none : Option Reason), g)
        | none => do
          let candidatos := buscar slot₁.token_src
          let ((nb, reason), g₂) ←
            ProcesadorNucleos.f4_seleccion slot₁ candidatos g npend
          pure (nb, reason, g₂)
      let restart := reason.isSome
      let (n_flexionado, morph_tgt) :=
        ProcesadorNucleos.f5_morfologia n_base slot₁.morph_src
      let _ ← g₂.fase_b_verificar_sinonimia slot₁.token_src n_base
      let (margen, etiqueta) :=
        match reason with
        | some r => (ProcesadorNucleos.calcular_margen r, some r.name)
        | none => (1, none)
      let (_, g₃) ← g₂.fase_b_asignar slot₁.token_src n_base margen etiqueta none
      let slot₂ :=
        { slot₁ with token_tgt := some n_flexionado,
                     morph_tgt := some morph_tgt, status := .ASIGNADO }
      pure ({ exito := true, token_tgt := some n_flexionado,
              morph_tgt := some morph_tgt, restart := restart,
              reason := reason }, slot₂, g₃)
  match body with
  | .ok out => out
  | .error (.sinonimia t e p) =>
    ({ exito := false,
       mensaje := "FALLO CRÍTICO: Sinonimia - Sinonimia detectada en \x27" ++ t ++
         "\x27: existente=\x27" ++ e ++ "\x27, propuesta=\x27" ++ p ++ "\x27" },
     slot, g)
  | .error _ => ({ exito := false, mensaje := "Error" }, slot, g)

-- ══════════════════════════════════════════════════════════════
-- core.py: F1 initialization and the mutation alphabet of Mtx_T
-- ══════════════════════════════════════════════════════════════

/-- The registration check loop of `Core._f1_inicializacion` (core.py). -/
def Core.verificarRegistro (g : Glosario) :
    List CeldaMatriz → Except PyErr Unit
  | [] => pure ()
  | c :: cs => do
    let _ ← g.fase_b_verificar_existencia c.token_src c.pos
    Core.verificarRegistro g cs

/-- `Core._f1_inicializacion` (core.py): allocate `MatrizTarget` with the
source size, then verify every source token is glossary-registered
(`TokenNoRegistradoError` propagates). -/
def Core.f1_inicializacion (g : Glosario) (mtx_s : MatrizFuente) :
    Except PyErr MatrizTarget := do
  let mtx_t := MatrizTarget.init mtx_s.size
  let _ ← Core.verificarRegistro g mtx_s.celdas
  pure mtx_t

/-- The operations the Core performs on a `MatrizTarget` after F1: the four
position-taking mutators of models.py and a repair-cascade invocation
(core.py `_f5_ajuste` calls `reparar(self.mtx_t, pos_index)`). -/
inductive OpMatriz where
  | asignar (pos : Int) (token_tgt : String) (tipo : String)
  | marcarAbsorbido (pos : Int)
  | marcarNulo (pos : Int)
  | insertarInyeccion (token : String) (pos_referencia : Int)
  | repararCascada (pos : Int) (token_fuente : Bool)
deriving DecidableEq, Repr

/-- Apply one operation.  A raised exception inside `reparar` leaves the
matrix as it was: in the source every raising point of the cascade precedes
any mutation of the matrix. -/
def OpMatriz.aplicar (m : MatrizTarget) : OpMatriz → MatrizTarget
  | .asignar pos tok tipo => m.asignar pos tok tipo
  | .marcarAbsorbido pos => m.marcar_absorbido pos
  | .marcarNulo pos => m.marcar_nulo pos
  | .insertarInyeccion tok posRef => m.insertar_inyeccion tok posRef
  | .repararCascada pos tf =>
    match ReparadorSintactico.reparar m pos tf with
    | .ok (_, m₂) => m₂
    | .error _ => m

-- ══════════════════════════════════════════════════════════════
-- Well-formedness predicates and concrete instances used by the
-- verification
-- ══════════════════════════════════════════════════════════════

/-- The class invariant of `MatrizTarget` as built by `__init__` and kept by
every method: `_size` equals the cell count, and every injected cell carries
a token (as `insertar_inyeccion` guarantees). -/
def MatrizTarget.wf (m : MatrizTarget) : Prop :=
  m.sz = m.celdas.length ∧ ∀ c ∈ m.inyecciones, c.token_tgt ≠ none

instance (m : MatrizTarget) : Decidable m.wf := by
  unfold MatrizTarget.wf; infer_instance

/-- A repaired cell is in a valid state: absorbed, structurally void
(null-marked), or carrying a non-empty target token. -/
def CeldaMatriz.reparada (c : CeldaMatriz) : Prop :=
  c.es_absorbido = true ∨ c.es_nulo = true ∨ strTruthy c.token_tgt = true

/-- Size/cell-count preservation between two target matrices. -/
def MatPres (m m' : MatrizTarget) : Prop :=
  m'.sz = m.sz ∧ m'.celdas.length = m.celdas.length

-- Concrete instances for witnesses, counterexamples and failing inputs.

/-- A glossary holding the nucleus `kitab` already assigned to `libro`. -/
def gKitab : Glosario :=
  { entradas := [("kitab",
      { token_src := "kitab", categoria := .NUCLEO, token_tgt := some "libro",
        status := .ASIGNADO, margen := 1, ocurrencias := [0] })] }

/-- The nucleus slot for a later occurrence of `kitab`. -/
def slotKitab : SlotN :=
  { token_src := "kitab", cat_src := .SUSTANTIVO, morph_src := {}, pos_index := 0 }

/-- A collision candidate `texto` with score `2 × 2 + 0 + 0 = 4 > 3`:
a clear winner by the evaluation rule. -/
def candTexto : CandidatoEtimologico :=
  { termino := "texto", origen := "LATINA", raiz := "text-",
    derivacion_existe := false, es_metafora_viable := false, prioridad := 2 }

/-- A size-1 target matrix whose only cell is absorbed and whose injection
list holds a support token `que` duplicating the source token `que`. -/
def mDupIny : MatrizTarget :=
  { sz := 1
    celdas := [{ pos := 0, token_src := "que", token_tgt := some "[ABSORBIDO]",
                 tipo := "absorbido" }]
    inyecciones := [{ pos := 0, token_src := "", token_tgt := some "que",
                      tipo := "inyeccion" }] }

/-- A size-1 target matrix whose cell has no target token. -/
def mSinToken : MatrizTarget :=
  { sz := 1
    celdas := [{ pos := 0, token_src := "x", token_tgt := none, tipo := "normal" }]
    inyecciones := [] }

/-- A glossary with entries `foo` and `bar` (none locked, no locutions). -/
def gFooBar : Glosario :=
  { entradas := [("foo", { token_src := "foo", categoria := .NUCLEO }),
                 ("bar", { token_src := "bar", categoria := .NUCLEO })] }

/-- A glossary whose particle entry `bi` holds a per-function-role target
map (`REGIMEN → por`), the data dropped by `exportar_json`. -/
def gParticula : Glosario :=
  { entradas := [("bi",
      { token_src := "bi", categoria := .PARTICULA, token_tgt := some "por",
        status := .ASIGNADO, margen := 1, ocurrencias := [0],
        traducciones_por_funcion := [(.REGIMEN, "por")] })]
    locuciones := [("LOC_0001",
      { id := "LOC_0001", src := "bi-zzz-ha", componentes := ["bi", "zzz", "ha"],
        posiciones := [0, 1, 2], tgt := some "por-zzz-suyo" })]
    locucion_counter := 1
    sellado := true }

/-- A glossary with the single assigned nucleus `aql → intelecto`. -/
def gAql : Glosario :=
  { entradas := [("aql",
      { token_src := "aql", categoria := .NUCLEO, token_tgt := some "intelecto",
        status := .ASIGNADO, margen := 1, ocurrencias := [0, 7] })] }

/-- A nucleus slot for a later occurrence of `aql`. -/
def slotAql : SlotN :=
  { token_src := "aql", cat_src := .SUSTANTIVO, morph_src := {}, pos_index := 7 }

/-- A one-cell source matrix whose token `aql` is registered in `gAql`. -/
def srcAql : MatrizFuente :=
  { celdas := [{ pos := 0, token_src := "aql", token_tgt := none, tipo := "normal" }] }

/-- A nucleus slot for an unpluralized adjective token `zzz`. -/
def slotZzzAdj : SlotN :=
  { token_src := "zzz", cat_src := .ADJETIVO, morph_src := {}, pos_index := 0 }

/-- A nucleus slot for the verb token `zzz` of spec Scenario C. -/
def slotZzzVerb : SlotN :=
  { token_src := "zzz", cat_src := .VERBO, morph_src := {}, pos_index := 0 }

/-- A collision candidate whose score `2 × 0 + 0 + 0 = 0` stays at or below
the clear-winner threshold. -/
def candBajo : CandidatoEtimologico :=
  { termino := "nota", origen := "LATINA", raiz := "not-",
    derivacion_existe := false, es_metafora_viable := false, prioridad := 0 }

-- ══════════════════════════════════════════════════════════════
-- Helper lemmas on the Python primitives
-- ══════════════════════════════════════════════════════════════

theorem listModifyIdx_length {α : Type} (l : List α) (i : Nat) (f : α → α) :
    (listModifyIdx l i f).length = l.length := by
  induction l generalizing i with
  | nil => rfl
  | cons x xs ih =>
    cases i with
    | zero => rfl
    | succ n => simp [listModifyIdx, ih]

theorem except_bind_ok {ε α β : Type} (a : α) (f : α → Except ε β) :
    (Except.ok a >>= f : Except ε β) = f a := rfl

theorem except_bind_err {ε α β : Type} (e : ε) (f : α → Except ε β) :
    (Except.error e >>= f : Except ε β) = Except.error e := rfl

theorem except_pure {ε α : Type} (a : α) :
    (pure a : Except ε α) = Except.ok a := rfl

theorem pyGet_of_get? {α : Type} {l : List α} {i : Int} {x : α}
    (h0 : 0 ≤ i) (h : l.get? i.toNat = some x) : pyGet l i = .ok x := by
  have hlt : i.toNat < l.length := List.get?_eq_some.mp h |>.1
  have hx : l[i.toNat] = x := by
    have h₂ := h
    rwa [List.get?_eq_getElem?, List.getElem?_eq_getElem hlt, Option.some_inj] at h₂
  simp [pyGet, pyResolve, h0, hlt, except_bind_ok, h, except_pure, hx]

theorem pyGetGuard_inrange {α : Type} {l : List α} {i : Int} {x : α}
    (h0 : 0 ≤ i) (h : l.get? i.toNat = some x) :
    pyGetGuard l i = .ok (some x) := by
  have hlt : i.toNat < l.length := List.get?_eq_some.mp h |>.1
  have hlt2 : i < (l.length : Int) := by omega
  simp [pyGetGuard, hlt2, pyGet_of_get? h0 h, Except.map]

theorem pyGetGuard_beyond {α : Type} {l : List α} {i : Int}
    (h : (l.length : Int) ≤ i) : pyGetGuard l i = .ok none := by
  have : ¬ i < (l.length : Int) := by omega
  simp [pyGetGuard, this, except_pure]

theorem listModifyIdx_get?_self {α : Type} (l : List α) (i : Nat) (f : α → α) :
    (listModifyIdx l i f).get? i = (l.get? i).map f := by
  induction l generalizing i with
  | nil => simp [listModifyIdx]
  | cons x xs ih =>
    cases i with
    | zero => simp [listModifyIdx]
    | succ n => simpa [listModifyIdx] using ih n

theorem listModifyIdx_get?_other {α : Type} (l : List α) (i j : Nat)
    (f : α → α) (h : i ≠ j) : (listModifyIdx l i f).get? j = l.get? j := by
  induction l generalizing i j with
  | nil => simp [listModifyIdx]
  | cons x xs ih =>
    cases i with
    | zero =>
      cases j with
      | zero => exact absurd rfl h
      | succ m => simp [listModifyIdx]
    | succ n =>
      cases j with
      | zero => simp [listModifyIdx]
      | succ m => simpa [listModifyIdx] using ih n m (by omega)

-- ══════════════════════════════════════════════════════════════
-- Claim C10: the guarded position-taking operations of MatrizTarget
-- ══════════════════════════════════════════════════════════════

/-- C10: every position-taking operation of `MatrizTarget` (`asignar`,
`marcar_absorbido`, `marcar_nulo`, `obtener_token`) is total and guarded:
at a position outside `[0, size)` the matrix is left completely unchanged,
`obtener_token` answers `None`, and no call ever changes the cell count. -/
theorem matrizTarget_ops_guarded (m : MatrizTarget) (pos : Int)
    (tok tipo : String) (h : pos < 0 ∨ (m.sz : Int) ≤ pos) :
    m.asignar pos tok tipo = m ∧
    m.marcar_absorbido pos = m ∧
    m.marcar_nulo pos = m ∧
    m.obtener_token pos = none ∧
    (∀ pos₂ : Int, (m.asignar pos₂ tok tipo).celdas.length = m.celdas.length ∧
      (m.marcar_absorbido pos₂).celdas.length = m.celdas.length ∧
      (m.marcar_nulo pos₂).celdas.length = m.celdas.length) := by
  have hguard : ¬ (0 ≤ pos ∧ pos < (m.sz : Int)) := by omega
  refine ⟨?_, ?_, ?_, ?_, ?_⟩
  · simp [MatrizTarget.asignar, hguard]
  · simp [MatrizTarget.marcar_absorbido, hguard]
  · simp [MatrizTarget.marcar_nulo, hguard]
  · simp [MatrizTarget.obtener_token, hguard]
  · intro pos₂
    refine ⟨?_, ?_, ?_⟩ <;>
      first
        | (simp only [MatrizTarget.asignar]; split <;> simp [listModifyIdx_length])
        | (simp only [MatrizTarget.marcar_absorbido]; split <;> simp [listModifyIdx_length])
        | (simp only [MatrizTarget.marcar_nulo]; split <;> simp [listModifyIdx_length])

/-- Witness for C10 at a concrete matrix and an out-of-range position. -/
theorem matrizTarget_ops_guarded_witness :
    (MatrizTarget.init 2).asignar 5 "x" "normal" = MatrizTarget.init 2 ∧
    (MatrizTarget.init 2).obtener_token (-1) = none := by
  refine ⟨(matrizTarget_ops_guarded (MatrizTarget.init 2) 5 "x" "normal"
    (Or.inr (by decide))).1, ?_⟩
  exact (matrizTarget_ops_guarded (MatrizTarget.init 2) (-1) "x" "normal"
    (Or.inl (by decide))).2.2.2.1

-- ══════════════════════════════════════════════════════════════
-- Size preservation of every target-matrix mutation (towards C1)
-- ══════════════════════════════════════════════════════════════

theorem matPres_rfl (m : MatrizTarget) : MatPres m m := ⟨rfl, rfl⟩

theorem matPres_trans {a b c : MatrizTarget} (h₁ : MatPres a b)
    (h₂ : MatPres b c) : MatPres a c :=
  ⟨h₂.1.trans h₁.1, h₂.2.trans h₁.2⟩

theorem asignar_pres (m : MatrizTarget) (pos : Int) (tok tipo : String) :
    MatPres m (m.asignar pos tok tipo) := by
  unfold MatrizTarget.asignar MatPres
  split <;> simp [listModifyIdx_length]

theorem marcar_absorbido_pres (m : MatrizTarget) (pos : Int) :
    MatPres m (m.marcar_absorbido pos) := by
  unfold MatrizTarget.marcar_absorbido MatPres
  split <;> simp [listModifyIdx_length]

theorem marcar_nulo_pres (m : MatrizTarget) (pos : Int) :
    MatPres m (m.marcar_nulo pos) := by
  unfold MatrizTarget.marcar_nulo MatPres
  split <;> simp [listModifyIdx_length]

theorem insertar_inyeccion_pres (m : MatrizTarget) (tok : String) (pos : Int) :
    MatPres m (m.insertar_inyeccion tok pos) := by
  simp [MatrizTarget.insertar_inyeccion, MatPres]

theorem op_insert_pres (m : MatrizTarget) (t : String) (p : Int) :
    MatPres m (Operadores.op_insert m t p).2 := by
  unfold Operadores.op_insert
  split
  · exact matPres_rfl m
  · split
    · exact matPres_rfl m
    · exact insertar_inyeccion_pres m t p

theorem op_null_pres (m : MatrizTarget) (p : Int) :
    MatPres m (Operadores.op_null m p).2 := by
  unfold Operadores.op_null
  split
  · exact matPres_rfl m
  · exact marcar_nulo_pres m p

theorem pyModifyGuard_length {α : Type} {l l' : List α} {i : Int}
    {f : α → α} (h : pyModifyGuard l i f = .ok l') : l'.length = l.length := by
  unfold pyModifyGuard at h
  split at h
  · cases hr : pyResolve l.length i with
    | error e => rw [hr] at h; simp [except_bind_err] at h
    | ok j =>
      rw [hr] at h
      simp only [except_bind_ok, except_pure, Except.ok.injEq] at h
      rw [← h]
      exact listModifyIdx_length l j f
  · simp only [except_pure, Except.ok.injEq] at h
    rw [← h]

theorem op_insert_punct_pres {m m' : MatrizTarget} {p : String} {pos : Int}
    {b : Bool} (h : Operadores.op_insert_punct m p pos = .ok (b, m')) :
    MatPres m m' := by
  unfold Operadores.op_insert_punct at h
  split at h
  · simp only [except_pure, Except.ok.injEq, Prod.mk.injEq] at h
    rw [← h.2]; exact matPres_rfl m
  · cases hpm : pyModifyGuard m.celdas pos
        (fun c => if strTruthy c.token_tgt then
          { c with token_tgt := some ((c.token_tgt.getD "") ++ p) } else c) with
    | error e => rw [hpm] at h; simp [except_bind_err] at h
    | ok l' =>
      rw [hpm] at h
      simp only [except_bind_ok, except_pure, Except.ok.injEq, Prod.mk.injEq] at h
      rw [← h.2]
      exact ⟨rfl, pyModifyGuard_length hpm⟩

theorem soporteLoop_pres {pos : Int} :
    ∀ {ts : List String} {m m' : MatrizTarget} {b : Bool},
      ReparadorSintactico.soporteLoop pos m ts = .ok (b, m') → MatPres m m'
  | [], m, m', b, h => by
    simp only [ReparadorSintactico.soporteLoop, except_pure, Except.ok.injEq,
      Prod.mk.injEq] at h
    rw [← h.2]; exact matPres_rfl m
  | t :: ts, m, m', b, h => by
    rw [ReparadorSintactico.soporteLoop] at h
    split at h
    next ok₁ m₁ heq =>
      have hp₁ : MatPres m m₁ := by
        have h₀ := op_insert_pres m t pos; rwa [heq] at h₀
      split at h
      · cases hv : VerificadorCohesion.verificar m₁ pos with
        | error e => rw [hv] at h; simp [except_bind_err] at h
        | ok v =>
          rw [hv] at h
          simp only [except_bind_ok] at h
          split at h
          · simp only [except_pure, Except.ok.injEq, Prod.mk.injEq] at h
            rw [← h.2]; exact hp₁
          · exact matPres_trans hp₁ (soporteLoop_pres h)
      · exact soporteLoop_pres h

theorem f2_puntuacion_pres {m m' : MatrizTarget} {pos : Int} {b : Bool}
    (h : ReparadorSintactico.f2_puntuacion m pos = .ok (b, m')) :
    MatPres m m' := by
  rw [ReparadorSintactico.f2_puntuacion] at h
  cases hcg : pyGetGuard m.celdas pos with
  | error e => rw [hcg] at h; simp [except_bind_err] at h
  | ok celdaOpt =>
    rw [hcg] at h
    simp only [except_bind_ok] at h
    split at h
    · simp only [except_pure, Except.ok.injEq, Prod.mk.injEq] at h
      rw [← h.2]; exact matPres_rfl m
    · split at h
      · cases hreq : ReparadorSintactico.requiere_puntuacion m pos with
        | error e => rw [hreq] at h; simp [except_bind_err] at h
        | ok req =>
          rw [hreq] at h
          simp only [except_bind_ok] at h
          split at h
          · cases hpc : Operadores.op_insert_punct m "," pos with
            | error e => rw [hpc] at h; simp [except_bind_err] at h
            | ok om =>
              have hp₂ : MatPres m om.2 := op_insert_punct_pres (b := om.1)
                (by rw [hpc])
              rw [hpc] at h
              simp only [except_bind_ok] at h
              split at h
              · cases hv : VerificadorCohesion.verificar om.2 pos with
                | error e => rw [hv] at h; simp [except_bind_err] at h
                | ok v =>
                  rw [hv] at h
                  simp only [except_bind_ok] at h
                  split at h <;>
                    (simp only [except_pure, Except.ok.injEq, Prod.mk.injEq] at h;
                     rw [← h.2]; exact hp₂)
              · simp only [except_pure, Except.ok.injEq, Prod.mk.injEq] at h
                rw [← h.2]; exact hp₂
          · simp only [except_pure, Except.ok.injEq, Prod.mk.injEq] at h
            rw [← h.2]; exact matPres_rfl m
      · simp only [except_pure, Except.ok.injEq, Prod.mk.injEq] at h
        rw [← h.2]; exact matPres_rfl m

theorem f2_soporte_pres {m m' : MatrizTarget} {pos : Int} {b : Bool}
    (h : ReparadorSintactico.f2_soporte m pos = .ok (b, m')) : MatPres m m' := by
  rw [ReparadorSintactico.f2_soporte] at h
  cases hip : VerificadorCohesion.identificar_problema m pos with
  | error e => rw [hip] at h; simp [except_bind_err] at h
  | ok problema =>
    rw [hip] at h
    simp only [except_bind_ok] at h
    split at h
    · simp only [except_pure, Except.ok.injEq, Prod.mk.injEq] at h
      rw [← h.2]; exact matPres_rfl m
    next p =>
      split at h
      · -- FALTA_SOPORTE branch (unreachable in practice): support loop
        cases hsl : ReparadorSintactico.soporteLoop pos m WHITELIST_INYECCION with
        | error e => rw [hsl] at h; simp [except_bind_err] at h
        | ok y =>
          have hp₁ : MatPres m y.2 := soporteLoop_pres (b := y.1) (by rw [hsl])
          rw [hsl] at h
          simp only [except_bind_ok] at h
          split at h
          · simp only [except_pure, Except.ok.injEq, Prod.mk.injEq] at h
            rw [← h.2]; exact hp₁
          · exact matPres_trans hp₁ (f2_puntuacion_pres h)
      · -- no support injection: straight to the punctuation stage
        simp only [except_pure, except_bind_ok] at h
        split at h
        next hcond => simp at hcond
        next hcond => exact f2_puntuacion_pres h

theorem f4_nulidad_local_pres {m m' : MatrizTarget} {pos : Int} {b : Bool}
    (h : ReparadorSintactico.f4_nulidad_local m pos = .ok (b, m')) :
    MatPres m m' := by
  rw [ReparadorSintactico.f4_nulidad_local] at h
  cases hcg : pyGetGuard m.celdas pos with
  | error e => rw [hcg] at h; simp [except_bind_err] at h
  | ok celdaOpt =>
    rw [hcg] at h
    simp only [except_bind_ok] at h
    split at h
    · simp only [except_pure, Except.ok.injEq, Prod.mk.injEq] at h
      rw [← h.2]; exact matPres_rfl m
    · have hp := op_null_pres m pos
      split at h <;>
        (simp only [except_pure, Except.ok.injEq, Prod.mk.injEq] at h;
         rw [← h.2])
      · exact hp
      · exact hp

theorem f5_nulidad_regimen_pres {m m' : MatrizTarget} {pos : Int} {b : Bool}
    (h : ReparadorSintactico.f5_nulidad_regimen m pos = .ok (b, m')) :
    MatPres m m' := by
  rw [ReparadorSintactico.f5_nulidad_regimen] at h
  cases hcg : pyGetGuard m.celdas pos with
  | error e => rw [hcg] at h; simp [except_bind_err] at h
  | ok celdaOpt =>
    rw [hcg] at h
    simp only [except_bind_ok] at h
    split at h
    · simp only [except_pure, Except.ok.injEq, Prod.mk.injEq] at h
      rw [← h.2]; exact matPres_rfl m
    · have hp := op_null_pres m pos
      split at h <;>
        (simp only [except_pure, Except.ok.injEq, Prod.mk.injEq] at h;
         rw [← h.2])
      · exact hp
      · exact hp

theorem f6_limpieza_pres {m m' : MatrizTarget}
    (h : ReparadorSintactico.f6_limpieza m = .ok m') : MatPres m m' := by
  rw [ReparadorSintactico.f6_limpieza] at h
  cases hlf : ReparadorSintactico.limpiezaFilter
      ((m.celdas.filter (fun c => !(c.token_src == ""))).map
        (fun c => pyLower c.token_src)) m.inyecciones with
  | error e => rw [hlf] at h; simp [except_bind_err] at h
  | ok inys =>
    rw [hlf] at h
    simp only [except_bind_ok, except_pure, Except.ok.injEq] at h
    rw [← h]
    exact ⟨rfl, rfl⟩

theorem reparar_pres {m m' : MatrizTarget} {pos : Int} {tf : Bool}
    {r : ResultadoReparador}
    (h : ReparadorSintactico.reparar m pos tf = .ok (r, m')) : MatPres m m' := by
  rw [ReparadorSintactico.reparar] at h
  cases hb1 : ReparadorSintactico.f1_bypass m pos tf with
  | error e => rw [hb1] at h; simp [except_bind_err] at h
  | ok b1 =>
    rw [hb1] at h
    simp only [except_bind_ok] at h
    split at h
    · simp only [except_pure, Except.ok.injEq, Prod.mk.injEq] at h
      rw [← h.2]; exact matPres_rfl m
    · cases h2 : ReparadorSintactico.f2_soporte m pos with
      | error e => rw [h2] at h; simp [except_bind_err] at h
      | ok bm2 =>
        have hp2 : MatPres m bm2.2 := f2_soporte_pres (b := bm2.1) (by rw [h2])
        rw [h2] at h
        simp only [except_bind_ok] at h
        split at h
        · simp only [except_pure, Except.ok.injEq, Prod.mk.injEq] at h
          rw [← h.2]; exact hp2
        · cases h3 : ReparadorSintactico.f3_morfologia bm2.2 pos with
          | error e => rw [h3] at h; simp [except_bind_err] at h
          | ok b3 =>
            rw [h3] at h
            simp only [except_bind_ok] at h
            split at h
            · simp only [except_pure, Except.ok.injEq, Prod.mk.injEq] at h
              rw [← h.2]; exact hp2
            · cases h4 : ReparadorSintactico.f4_nulidad_local bm2.2 pos with
              | error e => rw [h4] at h; simp [except_bind_err] at h
              | ok bm4 =>
                have hp4 : MatPres bm2.2 bm4.2 :=
                  f4_nulidad_local_pres (b := bm4.1) (by rw [h4])
                rw [h4] at h
                simp only [except_bind_ok] at h
                split at h
                · simp only [except_pure, Except.ok.injEq, Prod.mk.injEq] at h
                  rw [← h.2]; exact matPres_trans hp2 hp4
                · cases h5 : ReparadorSintactico.f5_nulidad_regimen bm4.2 pos with
                  | error e => rw [h5] at h; simp [except_bind_err] at h
                  | ok bm5 =>
                    have hp5 : MatPres bm4.2 bm5.2 :=
                      f5_nulidad_regimen_pres (b := bm5.1) (by rw [h5])
                    rw [h5] at h
                    simp only [except_bind_ok] at h
                    split at h
                    · simp only [except_pure, Except.ok.injEq,
                        Prod.mk.injEq] at h
                      rw [← h.2]
                      exact matPres_trans (matPres_trans hp2 hp4) hp5
                    · cases h6 : ReparadorSintactico.f6_limpieza bm5.2 with
                      | error e => rw [h6] at h; simp [except_bind_err] at h
                      | ok m6 =>
                        have hp6 : MatPres bm5.2 m6 := f6_limpieza_pres h6
                        rw [h6] at h
                        simp only [except_bind_ok, except_pure,
                          Except.ok.injEq, Prod.mk.injEq] at h
                        rw [← h.2]
                        exact matPres_trans
                          (matPres_trans (matPres_trans hp2 hp4) hp5) hp6

theorem aplicar_pres (m : MatrizTarget) (op : OpMatriz) :
    MatPres m (OpMatriz.aplicar m op) := by
  cases op with
  | asignar pos tok tipo => exact asignar_pres m pos tok tipo
  | marcarAbsorbido pos => exact marcar_absorbido_pres m pos
  | marcarNulo pos => exact marcar_nulo_pres m pos
  | insertarInyeccion tok p => exact insertar_inyeccion_pres m tok p
  | repararCascada pos tf =>
    cases hr : ReparadorSintactico.reparar m pos tf with
    | error e => simp only [OpMatriz.aplicar, hr]; exact matPres_rfl m
    | ok rm =>
      simp only [OpMatriz.aplicar, hr]
      exact reparar_pres (r := rm.1) (by rw [hr])

theorem foldl_aplicar_pres (ops : List OpMatriz) :
    ∀ m : MatrizTarget, MatPres m (ops.foldl OpMatriz.aplicar m) := by
  induction ops with
  | nil => intro m; exact matPres_rfl m
  | cons op rest ih =>
    intro m
    exact matPres_trans (aplicar_pres m op) (ih (OpMatriz.aplicar m op))

theorem f1_inicializacion_ok {g : Glosario} {s : MatrizFuente}
    {t : MatrizTarget} (h : Core.f1_inicializacion g s = .ok t) :
    t = MatrizTarget.init s.size := by
  rw [Core.f1_inicializacion] at h
  cases hv : Core.verificarRegistro g s.celdas with
  | error e => rw [hv] at h; simp [except_bind_err] at h
  | ok u =>
    rw [hv] at h
    simp only [except_bind_ok, except_pure, Except.ok.injEq] at h
    exact h.symm

theorem length_map_range {α : Type} (n : Nat) (f : Nat → α) :
    ((List.range n).map f).length = n := by
  rw [List.length_map, List.length_range]

theorem matrizTarget_init_size (n : Nat) :
    (MatrizTarget.init n).sz = n ∧ (MatrizTarget.init n).celdas.length = n := by
  refine ⟨rfl, ?_⟩
  show ((List.range n).map (fun i =>
    ({ pos := Int.ofNat i, token_src := "", token_tgt := none,
       tipo := "normal" } : CeldaMatriz))).length = n
  exact length_map_range n _

/-- C1: for every sentence the Core processes, the target matrix F1
allocates has exactly as many cells as the source matrix, and no sequence
of target-matrix operations (`asignar`, `marcar_absorbido`, `marcar_nulo`,
`insertar_inyeccion`, or a repair-cascade invocation) ever changes either
its reported size or its cell count: before and after every mutation (that
is, after every prefix of the operation sequence) both equal the source
size; injected cells go to the separate `inyecciones` list and never count. -/
theorem isomorfismo_size_invariante (g : Glosario) (mtx_s : MatrizFuente)
    (mtx_t : MatrizTarget) (ops : List OpMatriz)
    (h : Core.f1_inicializacion g mtx_s = .ok mtx_t) :
    ∀ prefijo : List OpMatriz, prefijo <+: ops →
      (prefijo.foldl OpMatriz.aplicar mtx_t).size = mtx_s.size ∧
      (prefijo.foldl OpMatriz.aplicar mtx_t).celdas.length = mtx_s.size := by
  intro prefijo _
  have ht : mtx_t = MatrizTarget.init mtx_s.size := f1_inicializacion_ok h
  have hp := foldl_aplicar_pres prefijo mtx_t
  have hinit := matrizTarget_init_size mtx_s.size
  constructor
  · rw [MatrizTarget.size, hp.1, ht]; exact hinit.1
  · rw [hp.2, ht]; exact hinit.2

/-- Witness for C1: a concrete one-token sentence with a registered
glossary, pushed through an assignment, a repair-cascade invocation, an
injection and a null marking. -/
theorem isomorfismo_size_invariante_witness :
    (([.asignar 0 "intelecto" "normal", .repararCascada 0 true,
       .insertarInyeccion "que" 0, .marcarNulo 0] : List OpMatriz).foldl
        OpMatriz.aplicar (MatrizTarget.init 1)).size = srcAql.size ∧
    (([.asignar 0 "intelecto" "normal", .repararCascada 0 true,
       .insertarInyeccion "que" 0, .marcarNulo 0] : List OpMatriz).foldl
        OpMatriz.aplicar (MatrizTarget.init 1)).celdas.length = srcAql.size := by
  exact isomorfismo_size_invariante gAql srcAql (MatrizTarget.init 1)
    [.asignar 0 "intelecto" "normal", .repararCascada 0 true,
     .insertarInyeccion "que" 0, .marcarNulo 0] rfl
    [.asignar 0 "intelecto" "normal", .repararCascada 0 true,
     .insertarInyeccion "que" 0, .marcarNulo 0] (List.prefix_refl _)

-- ══════════════════════════════════════════════════════════════
-- Behaviour of the repair phases (towards C2 and C5)
-- ══════════════════════════════════════════════════════════════

theorem pyGetGuard_nonneg {α : Type} {l : List α} {i : Int} (h0 : 0 ≤ i) :
    ∃ o, pyGetGuard l i = .ok o := by
  by_cases hlt : i.toNat < l.length
  · obtain ⟨x, hx⟩ : ∃ x, l.get? i.toNat = some x := by
      rw [List.get?_eq_getElem?, List.getElem?_eq_getElem hlt]
      exact ⟨_, rfl⟩
    exact ⟨some x, pyGetGuard_inrange h0 hx⟩
  · have hb : (l.length : Int) ≤ i := by omega
    exact ⟨none, pyGetGuard_beyond hb⟩

theorem f1_bypass_beyond {m : MatrizTarget} {pos : Int} {tf : Bool}
    (hb : (m.celdas.length : Int) ≤ pos) :
    ReparadorSintactico.f1_bypass m pos tf = .ok false := by
  simp [ReparadorSintactico.f1_bypass, pyGetGuard_beyond hb, except_bind_ok,
    except_pure]

theorem f1_bypass_inrange {m : MatrizTarget} {pos : Int} {tf : Bool}
    {c : CeldaMatriz} (h0 : 0 ≤ pos) (hget : m.celdas.get? pos.toNat = some c) :
    ReparadorSintactico.f1_bypass m pos tf
      = .ok (c.es_absorbido || (tf && strTruthy c.token_tgt)) := by
  have hg := pyGetGuard_inrange h0 hget
  simp only [ReparadorSintactico.f1_bypass, hg, except_bind_ok]
  by_cases habs : c.es_absorbido = true
  · simp [habs, except_pure]
  · simp only [habs, Bool.false_eq_true, if_false, Bool.false_or]
    by_cases htc : (tf && strTruthy c.token_tgt) = true
    · simp [htc, except_pure]
    · simp [htc, except_pure]

theorem identificar_beyond {m : MatrizTarget} {pos : Int}
    (hb : (m.celdas.length : Int) ≤ pos) :
    VerificadorCohesion.identificar_problema m pos
      = .ok (some "POSICION_INVALIDA") := by
  simp [VerificadorCohesion.identificar_problema, hb, except_pure]

theorem identificar_inrange {m : MatrizTarget} {pos : Int} {c : CeldaMatriz}
    (h0 : 0 ≤ pos) (hget : m.celdas.get? pos.toNat = some c) :
    VerificadorCohesion.identificar_problema m pos
      = .ok (if strTruthy c.token_tgt then none else some "TOKEN_FALTANTE") := by
  have hlt : pos.toNat < m.celdas.length := List.get?_eq_some.mp hget |>.1
  have hnb : ¬ (m.celdas.length : Int) ≤ pos := by omega
  simp only [VerificadorCohesion.identificar_problema, hnb, if_false,
    pyGet_of_get? h0 hget, except_bind_ok]
  by_cases htr : strTruthy c.token_tgt = true <;> simp [htr, except_pure]

theorem f2_puntuacion_falso {m : MatrizTarget} {pos : Int} {c : CeldaMatriz}
    (h0 : 0 ≤ pos) (hget : m.celdas.get? pos.toNat = some c)
    (htr : strTruthy c.token_tgt = false) :
    ReparadorSintactico.f2_puntuacion m pos = .ok (false, m) := by
  have hg := pyGetGuard_inrange h0 hget
  simp [ReparadorSintactico.f2_puntuacion, hg, except_bind_ok, htr, except_pure]

theorem f2_puntuacion_beyond {m : MatrizTarget} {pos : Int}
    (hb : (m.celdas.length : Int) ≤ pos) :
    ReparadorSintactico.f2_puntuacion m pos = .ok (false, m) := by
  simp [ReparadorSintactico.f2_puntuacion, pyGetGuard_beyond hb,
    except_bind_ok, except_pure]

theorem f2_soporte_con_problema {m : MatrizTarget} {pos : Int} {p : String}
    (hip : VerificadorCohesion.identificar_problema m pos = .ok (some p))
    (hp : (p == "FALTA_SOPORTE") = false)
    {res : Bool × MatrizTarget}
    (hpt : ReparadorSintactico.f2_puntuacion m pos = .ok res) :
    ReparadorSintactico.f2_soporte m pos = .ok res := by
  simp [ReparadorSintactico.f2_soporte, hip, except_bind_ok, hp, except_pure,
    hpt]
  intro hcontra
  rw [hcontra] at hp
  simp at hp

theorem f2_soporte_sin_problema {m : MatrizTarget} {pos : Int}
    (hip : VerificadorCohesion.identificar_problema m pos = .ok none) :
    ReparadorSintactico.f2_soporte m pos = .ok (true, m) := by
  simp [ReparadorSintactico.f2_soporte, hip, except_bind_ok, except_pure]

theorem f3_morfologia_nonneg {m : MatrizTarget} {pos : Int} (h0 : 0 ≤ pos) :
    ReparadorSintactico.f3_morfologia m pos = .ok false := by
  obtain ⟨o, ho⟩ := pyGetGuard_nonneg (l := m.celdas) h0
  cases o with
  | none => simp [ReparadorSintactico.f3_morfologia, ho, except_bind_ok, except_pure]
  | some c =>
    simp only [ReparadorSintactico.f3_morfologia, ho, except_bind_ok]
    by_cases htr : strTruthy c.token_tgt = true <;> simp [htr, except_pure]

theorem f4_nulidad_local_inrange {m : MatrizTarget} {pos : Int}
    {c : CeldaMatriz} (h0 : 0 ≤ pos)
    (hget : m.celdas.get? pos.toNat = some c) :
    ReparadorSintactico.f4_nulidad_local m pos
      = .ok (true, m.marcar_nulo pos) := by
  have hlt : pos.toNat < m.celdas.length := List.get?_eq_some.mp hget |>.1
  have hnb : ¬ (m.celdas.length : Int) ≤ pos := by omega
  have hg := pyGetGuard_inrange h0 hget
  simp [ReparadorSintactico.f4_nulidad_local, hg, except_bind_ok,
    Operadores.op_null, hnb, except_pure]

theorem f4_nulidad_local_beyond {m : MatrizTarget} {pos : Int}
    (hb : (m.celdas.length : Int) ≤ pos) :
    ReparadorSintactico.f4_nulidad_local m pos = .ok (false, m) := by
  simp [ReparadorSintactico.f4_nulidad_local, pyGetGuard_beyond hb,
    except_bind_ok, except_pure]

theorem f5_nulidad_regimen_beyond {m : MatrizTarget} {pos : Int}
    (hb : (m.celdas.length : Int) ≤ pos) :
    ReparadorSintactico.f5_nulidad_regimen m pos = .ok (false, m) := by
  simp [ReparadorSintactico.f5_nulidad_regimen, pyGetGuard_beyond hb,
    except_bind_ok, except_pure]

theorem limpiezaFilter_ok {fuente : List String} :
    ∀ {l : List CeldaMatriz}, (∀ c ∈ l, c.token_tgt ≠ none) →
      ∃ l', ReparadorSintactico.limpiezaFilter fuente l = .ok l'
  | [], _ => ⟨[], rfl⟩
  | c :: cs, h => by
    obtain ⟨l', hl'⟩ := @limpiezaFilter_ok fuente cs
      (fun d hd => h d (List.mem_cons_of_mem c hd))
    cases htok : c.token_tgt with
    | none => exact absurd htok (h c (List.mem_cons_self c cs))
    | some t =>
      rw [ReparadorSintactico.limpiezaFilter]
      rw [htok]
      by_cases hmem : pyLower t ∈ fuente
      · exact ⟨l', by simp [hl', except_bind_ok, hmem, except_pure]⟩
      · exact ⟨c :: l', by simp [hl', except_bind_ok, hmem, except_pure]⟩

theorem f6_limpieza_ok {m : MatrizTarget}
    (hiny : ∀ c ∈ m.inyecciones, c.token_tgt ≠ none) :
    ∃ m₆, ReparadorSintactico.f6_limpieza m = .ok m₆ ∧
      m₆.celdas = m.celdas ∧ m₆.sz = m.sz := by
  obtain ⟨l', hl'⟩ := @limpiezaFilter_ok
    ((m.celdas.filter (fun c => !(c.token_src == ""))).map
      (fun c => pyLower c.token_src)) m.inyecciones hiny
  refine ⟨{ m with inyecciones := l' }, ?_, rfl, rfl⟩
  simp [ReparadorSintactico.f6_limpieza, hl', except_bind_ok, except_pure]

-- ══════════════════════════════════════════════════════════════
-- Claim C2: repair totality
-- ══════════════════════════════════════════════════════════════

/-- C2 (amended): for every target matrix satisfying the class invariant
and every NON-NEGATIVE position — including positions at or beyond the
matrix size and cells with no target token — `reparar` returns a result
with `exito = true` and raises no exception, and the cell at the repaired
position (when it exists) is left absorbed, null-marked, or carrying a
token: never in an unmarked missing-token state.  (As stated over every
position the claim fails: a sufficiently negative position raises
`IndexError`, see the counterexample.) -/
theorem reparar_totalidad (m : MatrizTarget) (pos : Int) (tf : Bool)
    (hwf : m.wf) (hpos : 0 ≤ pos) :
    ∃ r m', ReparadorSintactico.reparar m pos tf = .ok (r, m') ∧
      r.exito = true ∧
      ∀ c, m'.celdas.get? pos.toNat = some c → c.reparada := by
  obtain ⟨hsz, hiny⟩ := hwf
  have htn : (pos.toNat : Int) = pos := Int.toNat_of_nonneg hpos
  by_cases hrange : pos.toNat < m.celdas.length
  · obtain ⟨c, hget⟩ : ∃ c, m.celdas.get? pos.toNat = some c := by
      rw [List.get?_eq_getElem?, List.getElem?_eq_getElem hrange]
      exact ⟨_, rfl⟩
    by_cases habs : c.es_absorbido = true
    · have h1 : ReparadorSintactico.f1_bypass m pos tf = .ok true := by
        rw [f1_bypass_inrange hpos hget]; simp [habs]
      refine ⟨{ exito := true, mensaje := "REPAIR-OK (BYPASS)" }, m, ?_, rfl, ?_⟩
      · simp [ReparadorSintactico.reparar, h1, except_bind_ok, except_pure]
      · intro c' hc'
        rw [hget] at hc'
        cases hc'
        exact Or.inl habs
    · by_cases htr : strTruthy c.token_tgt = true
      · by_cases htf : tf = true
        · have h1 : ReparadorSintactico.f1_bypass m pos tf = .ok true := by
            rw [f1_bypass_inrange hpos hget]; simp [habs, htf, htr]
          refine ⟨{ exito := true, mensaje := "REPAIR-OK (BYPASS)" }, m, ?_, rfl, ?_⟩
          · simp [ReparadorSintactico.reparar, h1, except_bind_ok, except_pure]
          · intro c' hc'
            rw [hget] at hc'
            cases hc'
            exact Or.inr (Or.inr htr)
        · have htf' : tf = false := by revert htf; cases tf <;> simp
          have h1 : ReparadorSintactico.f1_bypass m pos tf = .ok false := by
            rw [f1_bypass_inrange hpos hget]; simp [habs, htf']
          have hip : VerificadorCohesion.identificar_problema m pos = .ok none := by
            rw [identificar_inrange hpos hget]; simp [htr]
          have h2 := f2_soporte_sin_problema hip
          refine ⟨{ exito := true, mensaje := "REPAIR-OK (SOPORTE)" }, m, ?_, rfl, ?_⟩
          · simp [ReparadorSintactico.reparar, h1, h2, except_bind_ok, except_pure]
          · intro c' hc'
            rw [hget] at hc'
            cases hc'
            exact Or.inr (Or.inr htr)
      · have htr' : strTruthy c.token_tgt = false := by
          revert htr; cases strTruthy c.token_tgt <;> simp
        have h1 : ReparadorSintactico.f1_bypass m pos tf = .ok false := by
          rw [f1_bypass_inrange hpos hget]; simp [habs, htr']
        have hip : VerificadorCohesion.identificar_problema m pos
            = .ok (some "TOKEN_FALTANTE") := by
          rw [identificar_inrange hpos hget]; simp [htr']
        have hpt := f2_puntuacion_falso hpos hget htr'
        have h2 := f2_soporte_con_problema hip (by decide) hpt
        have h3 := f3_morfologia_nonneg (m := m) hpos
        have h4 := f4_nulidad_local_inrange hpos hget
        refine ⟨{ exito := true, mensaje := "REPAIR-OK (NULIDAD_LOCAL)" },
          m.marcar_nulo pos, ?_, rfl, ?_⟩
        · simp [ReparadorSintactico.reparar, h1, h2, h3, h4, except_bind_ok,
            except_pure]
        · intro c' hc'
          have hguard : 0 ≤ pos ∧ pos < (m.sz : Int) := by
            constructor
            · exact hpos
            · rw [hsz]; omega
          rw [MatrizTarget.marcar_nulo, if_pos hguard] at hc'
          simp only [listModifyIdx_get?_self, hget, Option.map_some] at hc'
          cases hc'
          exact Or.inr (Or.inl (by simp [CeldaMatriz.es_nulo]))
  · have hb : (m.celdas.length : Int) ≤ pos := by omega
    have h1 := @f1_bypass_beyond m pos tf hb
    have hip := identificar_beyond hb
    have hpt := f2_puntuacion_beyond hb
    have h2 := f2_soporte_con_problema hip (by decide) hpt
    have h3 := f3_morfologia_nonneg (m := m) hpos
    have h4 := f4_nulidad_local_beyond hb
    have h5 := f5_nulidad_regimen_beyond hb
    obtain ⟨m₆, h6, hc6, _⟩ := f6_limpieza_ok hiny
    refine ⟨{ exito := true, mensaje := "REPAIR-OK" }, m₆, ?_, rfl, ?_⟩
    · simp [ReparadorSintactico.reparar, h1, h2, h3, h4, h5, h6,
        except_bind_ok, except_pure]
    · intro c' hc'
      rw [hc6] at hc'
      have := List.get?_eq_some.mp hc' |>.1
      omega

/-- Witness for C2 at a concrete matrix whose cell has no target token:
repair succeeds and the cell ends null-marked. -/
theorem reparar_totalidad_witness :
    MatrizTarget.wf mSinToken ∧
    ∃ r m', ReparadorSintactico.reparar mSinToken 0 true = .ok (r, m') ∧
      r.exito = true ∧
      ∀ c, m'.celdas.get? (0 : Int).toNat = some c → c.reparada := by
  refine ⟨by decide, ?_⟩
  exact reparar_totalidad mSinToken 0 true (by decide) (by decide)

/-- Counterexample to C2 as stated: at the out-of-matrix position `-5` of a
2-cell matrix (Python positions are arbitrary ints and the claim covers
positions outside the matrix), `reparar` raises `IndexError` instead of
returning a success result — the `pos < len(celdas)` guard of the source
does not protect negative indices. -/
theorem reparar_totalidad_counterexample :
    ReparadorSintactico.reparar (MatrizTarget.init 2) (-5) true
      = .error .indexError := rfl

-- ══════════════════════════════════════════════════════════════
-- Claim C5: the cleanup phase after a successful repair
-- ══════════════════════════════════════════════════════════════

/-- C5: the claim (and the source comment `F6. LIMPIEZA (siempre se
ejecuta)`) say cleanup always runs after any phase succeeds; the code
returns early instead.  At the failing input `mDupIny` — the Bypass phase
succeeds and the injection list holds a support token `que` duplicating the
source token `que` — `reparar` returns with the duplicate injection still
present, while the cleanup step, had it run, would have removed it. -/
theorem limpieza_no_ejecutada_tras_exito :
    ReparadorSintactico.reparar mDupIny 0 true
      = .ok ({ exito := true, mensaje := "REPAIR-OK (BYPASS)" }, mDupIny) ∧
    mDupIny.inyecciones.map (fun c => c.token_tgt) = [some "que"] ∧
    mDupIny.celdas.map (fun c => c.token_src) = ["que"] ∧
    ReparadorSintactico.f6_limpieza mDupIny
      = .ok { mDupIny with inyecciones := [] } :=
  ⟨rfl, rfl, rfl, rfl⟩

-- ══════════════════════════════════════════════════════════════
-- Claim C6: the NoRoot strategy and its default suffixes
-- ══════════════════════════════════════════════════════════════

/-- C6 (amended): the NoRoot strategy always produces the transliteration
of the source token joined (by the suffix-application rule) with the
category-default suffix when no subtype is given — noun entries get
`-idad`, adjective entries get `-al` (the first suffix of the first
subtype, `cualidad`), verb entries get `-ar`, adverb entries get `-mente` —
and the verb token `zzz` with zero candidates yields exactly `zzzar`. -/
theorem no_root_sufijos_por_defecto :
    (∀ slot : SlotN,
      ProcesadorCasosDificiles.estrategia_no_root slot
        = { n_base := GeneradorSufijos.aplicar_sufijo
              (Transliterador.transliterar slot.token_src)
              (GeneradorSufijos.obtener_sufijo slot.cat_src none),
            reason := .NO_ROOT,
            mensaje := "Neologismo radical: " ++ slot.token_src ++ " → " ++
              GeneradorSufijos.aplicar_sufijo
                (Transliterador.transliterar slot.token_src)
                (GeneradorSufijos.obtener_sufijo slot.cat_src none) }) ∧
    GeneradorSufijos.obtener_sufijo .SUSTANTIVO none = "-idad" ∧
    GeneradorSufijos.obtener_sufijo .ADJETIVO none = "-al" ∧
    GeneradorSufijos.obtener_sufijo .VERBO none = "-ar" ∧
    GeneradorSufijos.obtener_sufijo .ADVERB none = "-mente" ∧
    (ProcesadorCasosDificiles.estrategia_no_root slotZzzVerb).n_base = "zzzar" := by
  exact ⟨fun slot => rfl, by decide, by decide, by decide, by decide, by decide⟩

/-- Counterexample to C6 as stated: the default suffix for adjectives is
`-al` (first suffix of the first subtype `cualidad` in the `SUFIJOS`
table), not the claimed `-ado`; an adjective token `zzz` therefore yields
`zzzal`, not `zzzado`. -/
theorem no_root_sufijo_adjetivo_counterexample :
    GeneradorSufijos.obtener_sufijo .ADJETIVO none = "-al" ∧
    "-al" ≠ "-ado" ∧
    (ProcesadorCasosDificiles.estrategia_no_root slotZzzAdj).n_base = "zzzal" ∧
    "zzzal" ≠ "zzzado" := by
  exact ⟨by decide, by decide, by decide, by decide⟩

-- ══════════════════════════════════════════════════════════════
-- Claim C4: the completeness gate of sealing
-- ══════════════════════════════════════════════════════════════

theorem dedupFirst_mem {x : String} :
    ∀ {l seen : List String}, x ∈ dedupFirst seen l ↔ (x ∈ l ∧ x ∉ seen)
  | [], seen => by simp [dedupFirst]
  | y :: ys, seen => by
    rw [dedupFirst]
    by_cases hy : seen.contains y
    · rw [if_pos hy]
      rw [dedupFirst_mem (l := ys)]
      have hymem : y ∈ seen := by
        simpa [List.contains_iff_exists_mem_beq, beq_iff_eq] using hy
      constructor
      · rintro ⟨h1, h2⟩
        exact ⟨List.mem_cons_of_mem y h1, h2⟩
      · rintro ⟨h1, h2⟩
        cases List.mem_cons.mp h1 with
        | inl heq => exact absurd (heq ▸ hymem) h2
        | inr hmem => exact ⟨hmem, h2⟩
    · rw [if_neg hy]
      have hynot : y ∉ seen := by
        intro hmem
        exact hy (by simpa [List.contains_iff_exists_mem_beq, beq_iff_eq] using hmem)
      rw [List.mem_cons, dedupFirst_mem (l := ys)]
      constructor
      · rintro (heq | ⟨h1, h2⟩)
        · subst heq
          exact ⟨List.mem_cons_self x ys, hynot⟩
        · refine ⟨List.mem_cons_of_mem y h1, fun hc => h2 (List.mem_cons_of_mem y hc)⟩
      · rintro ⟨h1, h2⟩
        cases List.mem_cons.mp h1 with
        | inl heq => exact Or.inl heq
        | inr hmem =>
          by_cases hxy : x = y
          · exact Or.inl hxy
          · refine Or.inr ⟨hmem, fun hc => ?_⟩
            cases List.mem_cons.mp hc with
            | inl h => exact hxy h
            | inr h => exact h2 h

theorem contains_iff_mem {l : List String} {x : String} :
    l.contains x = true ↔ x ∈ l := by
  simp [List.contains_iff_exists_mem_beq, beq_iff_eq]

/-- C4 (amended): sealing raises `RegistroIncompletoError` iff some word
token of the text has no registered entry (and is not a locution
component); it succeeds — setting the seal flag — iff every text token is
registered.  Registered tokens absent from the text do NOT block a
successful seal; they are only reported as `sobrantes` inside the error
when one is raised. -/
theorem sellado_completitud (g : Glosario) (texto : String) :
    ((∀ w ∈ findallWords texto, w ∈ g.tokensRegistrados) →
      Glosario.a4_verificar_completitud g texto
        = .ok (true, { g with sellado := true })) ∧
    ((∃ w ∈ findallWords texto, w ∉ g.tokensRegistrados) →
      ∃ f s, Glosario.a4_verificar_completitud g texto
        = .error (.registroIncompleto f s) ∧ f ≠ []) := by
  constructor
  · intro hall
    have hfal : (dedupFirst [] (findallWords texto)).filter
        (fun t => !(dedupFirst [] g.tokensRegistrados).contains t) = [] := by
      rw [List.filter_eq_nil_iff]
      intro a ha
      have hmem : a ∈ findallWords texto := (dedupFirst_mem.mp ha).1
      have hreg : a ∈ g.tokensRegistrados := hall a hmem
      have hdm : a ∈ dedupFirst [] g.tokensRegistrados :=
        dedupFirst_mem.mpr ⟨hreg, by simp⟩
      simp [contains_iff_mem]
      exact hdm
    simp [Glosario.a4_verificar_completitud, hfal, except_pure]
    intro x hx
    exact dedupFirst_mem.mpr ⟨hall x (dedupFirst_mem.mp hx).1, by simp⟩
  · rintro ⟨w, hw, hwreg⟩
    have hwfal : w ∈ (dedupFirst [] (findallWords texto)).filter
        (fun t => !(dedupFirst [] g.tokensRegistrados).contains t) := by
      rw [List.mem_filter]
      refine ⟨dedupFirst_mem.mpr ⟨hw, by simp⟩, ?_⟩
      simp only [Bool.not_eq_true']
      rw [← Bool.not_eq_true]
      intro hc
      exact hwreg (dedupFirst_mem.mp (contains_iff_mem.mp hc)).1
    have hne : ((dedupFirst [] (findallWords texto)).filter
        (fun t => !(dedupFirst [] g.tokensRegistrados).contains t)).isEmpty
          = false := by
      cases hfl : (dedupFirst [] (findallWords texto)).filter
          (fun t => !(dedupFirst [] g.tokensRegistrados).contains t) with
      | nil => rw [hfl] at hwfal; exact absurd hwfal (by simp)
      | cons a l => simp
    refine ⟨(dedupFirst [] (findallWords texto)).filter
        (fun t => !(dedupFirst [] g.tokensRegistrados).contains t),
      (dedupFirst [] g.tokensRegistrados).filter
        (fun t => !(dedupFirst [] (findallWords texto)).contains t), ?_, ?_⟩
    · have hex : ∃ x ∈ dedupFirst [] (findallWords texto),
          x ∉ dedupFirst [] g.tokensRegistrados :=
        ⟨w, dedupFirst_mem.mpr ⟨hw, by simp⟩,
          fun hc => hwreg (dedupFirst_mem.mp hc).1⟩
      simp [Glosario.a4_verificar_completitud, hne, hex]
      rfl
    · intro hc
      rw [hc] at hwfal
      exact absurd hwfal (by simp)

/-- Witness for C4: sealing `gFooBar` against a text containing both
registered tokens succeeds, and against a text with the unregistered token
`baz` it raises `RegistroIncompletoError`. -/
theorem sellado_completitud_witness :
    Glosario.a4_verificar_completitud gFooBar "foo bar"
      = .ok (true, { gFooBar with sellado := true }) ∧
    ∃ f s, Glosario.a4_verificar_completitud gFooBar "foo baz"
      = .error (.registroIncompleto f s) ∧ f ≠ [] := by
  constructor
  · exact (sellado_completitud gFooBar "foo bar").1 (by decide)
  · exact (sellado_completitud gFooBar "foo baz").2 ⟨"baz", by decide, by decide⟩

/-- Counterexample to C4 as stated: with `foo` and `bar` registered but
only `foo` in the text, the token sets are NOT equal (the registered `bar`
is absent from the text) yet sealing succeeds — registered-but-absent
tokens do not prevent a successful seal. -/
theorem sellado_sobrantes_counterexample :
    Glosario.a4_verificar_completitud gFooBar "foo"
      = .ok (true, { gFooBar with sellado := true }) ∧
    "bar" ∈ gFooBar.tokensRegistrados ∧
    "bar" ∉ findallWords "foo" := by
  exact ⟨rfl, by decide, by decide⟩

-- ══════════════════════════════════════════════════════════════
-- Claim C7: the export/import round-trip of the glossary
-- ══════════════════════════════════════════════════════════════

theorem list_map_congr_mem {α β : Type} :
    ∀ (l : List α) (f h : α → β), (∀ x ∈ l, f x = h x) → l.map f = l.map h
  | [], _, _, _ => rfl
  | x :: xs, f, h, he => by
    rw [List.map_cons, List.map_cons, he x (List.mem_cons_self x xs),
      list_map_congr_mem xs f h (fun y hy => he y (List.mem_cons_of_mem x hy))]

theorem list_map_id_mem {α : Type} :
    ∀ (l : List α) (f : α → α), (∀ x ∈ l, f x = x) → l.map f = l
  | [], _, _ => rfl
  | x :: xs, f, he => by
    rw [List.map_cons, he x (List.mem_cons_self x xs),
      list_map_id_mem xs f (fun y hy => he y (List.mem_cons_of_mem x hy))]

/-- C7 (amended): re-importing an exported glossary preserves the seal
flag, every locution, and each entry's category, target, status, margin,
occurrences and tag — but each entry comes back with EMPTY per-function
maps, because `exportar_json` does not serialize `traducciones_por_funcion`
(nor `func_roles`).  The key-consistency hypotheses state what the source
constructors always guarantee: an entry is stored under its own
`token_src`, a locution under its own `id`, with the constant status. -/
theorem roundtrip_glosario (g : Glosario)
    (hkeys : ∀ p ∈ g.entradas, p.2.token_src = p.1)
    (hloc : ∀ p ∈ g.locuciones, p.2.id = p.1 ∧ p.2.status = "UNIDAD_COMPLEJA") :
    (Glosario.roundtrip g).sellado = g.sellado ∧
    (Glosario.roundtrip g).locuciones = g.locuciones ∧
    (Glosario.roundtrip g).entradas = g.entradas.map
      (fun p => (p.1,
        { p.2 with func_roles := [], traducciones_por_funcion := [] })) := by
  refine ⟨rfl, ?_, ?_⟩
  · show (g.locuciones.map _).map _ = g.locuciones
    rw [List.map_map]
    refine list_map_id_mem _ _ ?_
    intro p hp
    obtain ⟨i, loc⟩ := p
    obtain ⟨hid, hst⟩ := hloc ⟨i, loc⟩ hp
    simp only [Function.comp]
    cases loc
    simp_all
  · show (g.entradas.map _).map _ = _
    rw [List.map_map]
    refine list_map_congr_mem _ _ _ ?_
    intro p hp
    obtain ⟨t, e⟩ := p
    have htok := hkeys ⟨t, e⟩ hp
    simp only [Function.comp]
    cases e
    simp_all

/-- Witness for C7: the round-trip of the concrete glossary `gParticula`
keeps its seal flag and its locution list. -/
theorem roundtrip_glosario_witness :
    (Glosario.roundtrip gParticula).sellado = gParticula.sellado ∧
    (Glosario.roundtrip gParticula).locuciones = gParticula.locuciones := by
  have h := roundtrip_glosario gParticula (by decide)
    (by intro p hp; fin_cases hp; exact ⟨rfl, rfl⟩)
  exact ⟨h.1, h.2.1⟩

/-- Counterexample to C7 as stated: the particle entry `bi` of `gParticula`
holds the per-function-role target `REGIMEN → por`; after the round-trip
that map is empty, so the entries are not identical. -/
theorem roundtrip_glosario_counterexample :
    Glosario.roundtrip gParticula ≠ gParticula ∧
    (Glosario.obtener_entrada gParticula "bi").map
      (fun e => e.traducciones_por_funcion) = some [(.REGIMEN, "por")] ∧
    (Glosario.obtener_entrada (Glosario.roundtrip gParticula) "bi").map
      (fun e => e.traducciones_por_funcion) = some [] := by
  exact ⟨by decide, rfl, rfl⟩

-- ══════════════════════════════════════════════════════════════
-- Claim C8: the Collision strategy
-- ══════════════════════════════════════════════════════════════

theorem evaluar_fold_spec :
    ∀ (l : List CandidatoEtimologico) (acc : CandidatoEtimologico × Int),
      acc.2 ≤ (l.foldl (fun acc c =>
        if scoreCandidato c > acc.2 then (c, scoreCandidato c) else acc) acc).2 ∧
      (∀ d ∈ l, scoreCandidato d ≤ (l.foldl (fun acc c =>
        if scoreCandidato c > acc.2 then (c, scoreCandidato c) else acc) acc).2) ∧
      ((l.foldl (fun acc c =>
          if scoreCandidato c > acc.2 then (c, scoreCandidato c) else acc) acc)
            = acc ∨
        ((l.foldl (fun acc c =>
            if scoreCandidato c > acc.2 then (c, scoreCandidato c) else acc) acc).1
              ∈ l ∧
         scoreCandidato (l.foldl (fun acc c =>
            if scoreCandidato c > acc.2 then (c, scoreCandidato c) else acc) acc).1
           = (l.foldl (fun acc c =>
              if scoreCandidato c > acc.2 then (c, scoreCandidato c) else acc) acc).2))
  | [], acc => ⟨le_refl _, by simp, Or.inl rfl⟩
  | c :: cs, acc => by
    rw [List.foldl_cons]
    obtain ⟨ih1, ih2, ih3⟩ := evaluar_fold_spec cs
      (if scoreCandidato c > acc.2 then (c, scoreCandidato c) else acc)
    by_cases hc : scoreCandidato c > acc.2
    · rw [if_pos hc] at ih1 ih2 ih3 ⊢
      refine ⟨le_trans (le_of_lt hc) ih1, ?_, ?_⟩
      · intro d hd
        cases List.mem_cons.mp hd with
        | inl heq => exact heq ▸ ih1
        | inr hmem => exact ih2 d hmem
      · cases ih3 with
        | inl heq =>
          refine Or.inr ?_
          rw [heq]
          exact ⟨List.mem_cons_self c cs, rfl⟩
        | inr hin => exact Or.inr ⟨List.mem_cons_of_mem c hin.1, hin.2⟩
    · rw [if_neg hc] at ih1 ih2 ih3 ⊢
      refine ⟨ih1, ?_, ?_⟩
      · intro d hd
        cases List.mem_cons.mp hd with
        | inl heq =>
          have : scoreCandidato c ≤ acc.2 := le_of_not_lt hc
          exact heq ▸ le_trans this ih1
        | inr hmem => exact ih2 d hmem
      · cases ih3 with
        | inl heq => exact Or.inl heq
        | inr hin => exact Or.inr ⟨List.mem_cons_of_mem c hin.1, hin.2⟩

theorem evaluar_candidatos_spec (l : List CandidatoEtimologico) :
    (∀ c, ProcesadorCasosDificiles.evaluar_candidatos l = some c →
      c ∈ l ∧ 3 < scoreCandidato c ∧ ∀ d ∈ l, scoreCandidato d ≤ scoreCandidato c) ∧
    (ProcesadorCasosDificiles.evaluar_candidatos l = none →
      ∀ d ∈ l, scoreCandidato d ≤ 3) := by
  cases l with
  | nil =>
    constructor
    · intro c hc; simp [ProcesadorCasosDificiles.evaluar_candidatos] at hc
    · intro _ d hd; simp at hd
  | cons c0 rest =>
    obtain ⟨h1, h2, h3⟩ := evaluar_fold_spec (c0 :: rest) (c0, 0)
    constructor
    · intro c hc
      rw [ProcesadorCasosDificiles.evaluar_candidatos] at hc
      split at hc
      · have hgt : 3 < ((c0 :: rest).foldl (fun acc c =>
            if scoreCandidato c > acc.2 then (c, scoreCandidato c) else acc)
              (c0, 0)).2 := by assumption
        cases hc
        cases h3 with
        | inl heq =>
          rw [heq] at hgt
          exact absurd hgt (by norm_num)
        | inr hin =>
          refine ⟨hin.1, ?_, ?_⟩
          · rw [hin.2]; exact hgt
          · intro d hd; rw [hin.2]; exact h2 d hd
      · exact absurd hc (by simp)
    · intro hn d hd
      rw [ProcesadorCasosDificiles.evaluar_candidatos] at hn
      split at hn
      · exact absurd hn (by simp)
      · have hle : ¬ 3 < ((c0 :: rest).foldl (fun acc c =>
            if scoreCandidato c > acc.2 then (c, scoreCandidato c) else acc)
              (c0, 0)).2 := by assumption
        exact le_trans (h2 d hd) (le_of_not_lt hle)

theorem enum_map_fst_map {α β : Type} (l : List α) (f : Nat → β) :
    l.enum.map (fun p => f p.1) = (List.range l.length).map f := by
  rw [show (fun p : Nat × α => f p.1) = f ∘ Prod.fst from rfl, ← List.map_map,
    List.enum_map_fst]

/-- C8 (amended): in the Collision strategy, given a non-empty candidate
list: if any candidate is metaphor-viable, the first such candidate is
accepted outright; otherwise every candidate is scored as
`2 × origin-priority + 5 (metaphor) + 3 (derivation)` and the best-scoring
candidate is accepted when its score strictly exceeds the clear-winner
threshold 3 — PROVIDED the glossary does not already map the token to a
different target (otherwise the duplicate-mapping guard of C9 yields a
transliteration instead); with no clear winner the result requires a user
consultation carrying at most 5 lettered options (`A`, `B`, ...) with `A`
as the recommended default instead of a translation. -/
theorem estrategia_collision_comportamiento (slot : SlotN)
    (cands : List CandidatoEtimologico) (g : Glosario) (npend : Nat) :
    (∀ c, cands.find? (fun c => c.es_metafora_viable) = some c →
      ProcesadorCasosDificiles.estrategia_collision slot cands g npend
        = { n_base := c.termino, reason := .COLLISION,
            mensaje := "Preferencia etimológica (metáfora): " ++ c.termino }) ∧
    (∀ mejor, cands.find? (fun c => c.es_metafora_viable) = none →
      ProcesadorCasosDificiles.evaluar_candidatos cands = some mejor →
      (match g.obtener_entrada slot.token_src with
       | some e => strTruthy e.token_tgt && e.token_tgt != some mejor.termino
       | none => false) = false →
      ProcesadorCasosDificiles.estrategia_collision slot cands g npend
        = { n_base := mejor.termino, reason := .COLLISION,
            mensaje := "Mejor candidato: " ++ mejor.termino } ∧
      3 < scoreCandidato mejor ∧ mejor ∈ cands ∧
      ∀ d ∈ cands, scoreCandidato d ≤ scoreCandidato mejor) ∧
    (cands ≠ [] → cands.find? (fun c => c.es_metafora_viable) = none →
      ProcesadorCasosDificiles.evaluar_candidatos cands = none →
      (∀ d ∈ cands, scoreCandidato d ≤ 3) ∧
      (ProcesadorCasosDificiles.estrategia_collision slot cands g npend).requiere_consulta
        = true ∧
      ∃ con,
        (ProcesadorCasosDificiles.estrategia_collision slot cands g npend).consulta
          = some con ∧
        con.opciones.length = min 5 cands.length ∧
        con.recomendacion = "A" ∧
        con.opciones.map (fun o => o.letra)
          = (List.range (min 5 cands.length)).map
              (fun i => String.singleton (Char.ofNat (65 + i)))) := by
  refine ⟨?_, ?_, ?_⟩
  · intro c hfind
    have hne : cands.isEmpty = false := by
      cases cands with
      | nil => simp [List.find?] at hfind
      | cons a l => rfl
    simp [ProcesadorCasosDificiles.estrategia_collision, hne, hfind]
  · intro mejor hfind heval hconf
    have hne : cands.isEmpty = false := by
      cases hc : cands with
      | nil =>
        rw [hc] at heval
        simp [ProcesadorCasosDificiles.evaluar_candidatos] at heval
      | cons a l => rfl
    obtain ⟨hin, hgt, hmax⟩ :=
      (evaluar_candidatos_spec cands).1 mejor heval
    refine ⟨?_, hgt, hin, hmax⟩
    simp [ProcesadorCasosDificiles.estrategia_collision, hne, hfind, heval,
      hconf]
  · intro hnil hfind heval
    have hne : cands.isEmpty = false := by
      cases cands with
      | nil => exact absurd rfl hnil
      | cons a l => rfl
    refine ⟨(evaluar_candidatos_spec cands).2 heval, ?_, ?_⟩
    · simp [ProcesadorCasosDificiles.estrategia_collision, hne, hfind, heval]
    · refine ⟨ProcesadorCasosDificiles.crear_consulta_collision slot cands npend,
        ?_, ?_, rfl, ?_⟩
      · simp [ProcesadorCasosDificiles.estrategia_collision, hne, hfind, heval]
      · show ((cands.take 5).enum.map _).length = min 5 cands.length
        rw [List.length_map, List.enum_length, List.length_take]
      · show ((cands.take 5).enum.map _).map _
          = (List.range (min 5 cands.length)).map _
        rw [List.map_map]
        have := enum_map_fst_map (cands.take 5)
          (fun i => String.singleton (Char.ofNat (65 + i)))
        rw [show ((fun o : Opcion => o.letra) ∘ (fun p : Nat × CandidatoEtimologico =>
          ({ letra := String.singleton (Char.ofNat (65 + p.1)), texto := p.2.termino,
             justificacion := some ("Origen: " ++ p.2.origen) } : Opcion)))
          = (fun p : Nat × CandidatoEtimologico =>
              String.singleton (Char.ofNat (65 + p.1))) from rfl]
        rw [this, List.length_take]

/-- Counterexample to C8 as stated: the sole candidate `texto` has score
`4 > 3` and no candidate is metaphor-viable, yet the strategy does not
accept it — the glossary already maps `kitab` to `libro`, so the
duplicate-mapping guard produces the transliteration `kitab` instead. -/
theorem collision_ganador_no_aceptado_counterexample :
    ProcesadorCasosDificiles.evaluar_candidatos [candTexto] = some candTexto ∧
    3 < scoreCandidato candTexto ∧
    [candTexto].find? (fun c => c.es_metafora_viable) = none ∧
    (ProcesadorCasosDificiles.estrategia_collision slotKitab [candTexto] gKitab 0).n_base
      = "kitab" ∧
    (ProcesadorCasosDificiles.estrategia_collision slotKitab [candTexto] gKitab 0).requiere_consulta
      = false ∧
    "kitab" ≠ candTexto.termino := by
  exact ⟨rfl, by decide, rfl, rfl, rfl, by decide⟩

/-- Witness for C8: a clear winner is accepted against an empty glossary,
and a below-threshold candidate list yields a consultation with lettered
options and recommendation `A`. -/
theorem estrategia_collision_witness :
    ProcesadorCasosDificiles.estrategia_collision slotKitab [candTexto]
      { entradas := [] } 0
      = { n_base := candTexto.termino, reason := .COLLISION,
          mensaje := "Mejor candidato: " ++ candTexto.termino } ∧
    (ProcesadorCasosDificiles.estrategia_collision slotKitab [candBajo]
      { entradas := [] } 0).requiere_consulta = true := by
  constructor
  · exact ((estrategia_collision_comportamiento slotKitab [candTexto]
      { entradas := [] } 0).2.1 candTexto rfl rfl (by decide)).1
  · exact ((estrategia_collision_comportamiento slotKitab [candBajo]
      { entradas := [] } 0).2.2 (by decide) rfl rfl).2.1

-- ══════════════════════════════════════════════════════════════
-- Claim C9: the duplicate-mapping guard of the Collision strategy
-- ══════════════════════════════════════════════════════════════

/-- C9: at the failing input — glossary maps the nucleus `kitab` to
`libro`, the winning candidate is `texto` — the strategy does produce the
transliteration `kitab` of the token, and the existing mapping is not
overwritten; but the resolution does NOT complete: the subsequent glossary
registration (`_registrar_en_glosario` → `fase_b_asignar`) re-checks
synonymy against the very entry the guard detected and raises
`SinonimiaError`, so `procesar` propagates the exception instead of
finishing. -/
theorem collision_translit_registro_fatal :
    (ProcesadorCasosDificiles.estrategia_collision slotKitab [candTexto] gKitab 0).n_base
      = Transliterador.transliterar "kitab" ∧
    Transliterador.transliterar "kitab" = "kitab" ∧
    ProcesadorCasosDificiles.procesar slotKitab .COLLISION gKitab [candTexto] 0
      = .error (.sinonimia "kitab" "libro" "kitab") ∧
    (Glosario.obtener_entrada gKitab "kitab").map (fun e => e.token_tgt)
      = some (some "libro") :=
  ⟨rfl, rfl, rfl, rfl⟩

-- ══════════════════════════════════════════════════════════════
-- Claim C3: nucleus invariance across a shared glossary
-- ══════════════════════════════════════════════════════════════

theorem f1_bloqueo_false {slot : SlotN} {g : Glosario}
    (h : (ProcesadorNucleos.f1_verificar_bloqueo slot g).1 = false) :
    ProcesadorNucleos.f1_verificar_bloqueo slot g = (false, slot) := by
  unfold ProcesadorNucleos.f1_verificar_bloqueo at h ⊢
  split at h
  · simp at h
  · split at h
    · simp at h
    · split
      · simp_all
      · rfl

theorem except_throw {ε α : Type} (e : ε) :
    (throw e : Except ε α) = Except.error e := rfl

/-- C3: once a nucleus glossary entry for a token holds target `X`
(status `ASIGNADO`), (1) the cache check of the nucleus processor answers
`X`; (2) a later `procesar` of that token is independent of the external
candidate source — the lookup is never consulted; (3) `fase_b_asignar`
called again with the identical `X` succeeds idempotently, leaving the
glossary unchanged, while verifying or assigning any different `Y`
raises `SinonimiaError`; and (4) entries of category `PARTICULA` always
pass the synonymy check. -/
theorem nucleo_invariancia (g : Glosario) (slot : SlotN)
    (e : EntradaGlosario) (X : String)
    (hent : g.obtener_entrada slot.token_src = some e)
    (hstat : e.status = .ASIGNADO)
    (htgt : e.token_tgt = some X) :
    ProcesadorNucleos.f2_cache_check slot g = some X ∧
    (∀ buscar₁ buscar₂ npend,
      ProcesadorNucleos.procesar buscar₁ slot g npend
        = ProcesadorNucleos.procesar buscar₂ slot g npend) ∧
    (e.categoria = .NUCLEO → X ≠ "" →
      (∀ margen etiqueta role,
        g.fase_b_asignar slot.token_src X margen etiqueta role
          = .ok (true, g)) ∧
      (∀ Y, Y ≠ X →
        g.fase_b_verificar_sinonimia slot.token_src Y
          = .error (.sinonimia slot.token_src X Y) ∧
        ∀ margen etiqueta role,
          g.fase_b_asignar slot.token_src Y margen etiqueta role
            = .error (.sinonimia slot.token_src X Y))) ∧
    (∀ (g₂ : Glosario) (tok Y : String) (e₂ : EntradaGlosario),
      g₂.obtener_entrada tok = some e₂ → e₂.categoria = .PARTICULA →
      g₂.fase_b_verificar_sinonimia tok Y = .ok true) := by
  have halist : alistGet g.entradas slot.token_src = some e := hent
  have hcache : ProcesadorNucleos.f2_cache_check slot g = some X := by
    simp [ProcesadorNucleos.f2_cache_check, Glosario.obtener_entrada, halist,
      hstat, htgt]
  refine ⟨hcache, ?_, ?_, ?_⟩
  · intro b₁ b₂ npend
    unfold ProcesadorNucleos.procesar
    cases hf1 : ProcesadorNucleos.f1_verificar_bloqueo slot g with
    | mk blq s₁ =>
      cases blq with
      | true => rfl
      | false =>
        have hs : s₁ = slot := by
          have h₂ := @f1_bloqueo_false slot g (by rw [hf1])
          rw [hf1] at h₂
          exact (Prod.ext_iff.mp h₂).2
        subst hs
        simp [hcache]
  · intro hnuc hX
    have hXbeq : (X == "") = false := by
      simp [hX]
    have hsinX : g.fase_b_verificar_sinonimia slot.token_src X = .ok true := by
      simp [Glosario.fase_b_verificar_sinonimia, halist, hnuc, htgt, hXbeq,
        except_pure]
    constructor
    · intro margen etiqueta role
      simp [Glosario.fase_b_asignar, halist, EntradaGlosario.es_nucleo, hnuc,
        htgt, strTruthy, hXbeq, hsinX, except_bind_ok, except_pure]
    · intro Y hY
      have hsinY : g.fase_b_verificar_sinonimia slot.token_src Y
          = .error (.sinonimia slot.token_src X Y) := by
        simp [Glosario.fase_b_verificar_sinonimia, halist, hnuc, htgt, hXbeq,
          hY, except_throw]
      refine ⟨hsinY, ?_⟩
      intro margen etiqueta role
      simp [Glosario.fase_b_asignar, halist, EntradaGlosario.es_nucleo, hnuc,
        htgt, strTruthy, hXbeq, hsinY, except_bind_err, except_bind_ok]
  · intro g₂ tok Y e₂ hent₂ hcat
    have halist₂ : alistGet g₂.entradas tok = some e₂ := hent₂
    simp [Glosario.fase_b_verificar_sinonimia, halist₂, hcat, except_pure]

/-- Witness for C3 on the concrete glossary `gAql` where the nucleus `aql`
is already assigned `intelecto`: cache hit, idempotent re-assignment, and
a fatal synonymy error for the different proposal `razon`. -/
theorem nucleo_invariancia_witness :
    ProcesadorNucleos.f2_cache_check slotAql gAql = some "intelecto" ∧
    gAql.fase_b_asignar "aql" "intelecto" 1 none none = .ok (true, gAql) ∧
    gAql.fase_b_verificar_sinonimia "aql" "razon"
      = .error (.sinonimia "aql" "intelecto" "razon") := by
  have h := nucleo_invariancia gAql slotAql _ "intelecto" rfl rfl rfl
  exact ⟨h.1, (h.2.2.1 rfl (by decide)).1 1 none none,
    ((h.2.2.1 rfl (by decide)).2 "razon" (by decide)).1⟩
